import Mathlib

/-!
# Epidemic Spread Simulator: the simulation core of `script.js`

A shallow embedding of the simulation logic of `script.js` (the `Person` class,
`createPeople`, `updateSimulation`, `updateStatistics`, `resetSimulation`) and
theorems about it.

Modelling conventions.

* A JavaScript number is modelled by the rational `ℚ` it holds; counters that only
  ever hold non-negative integers (`state.day`, `state.frameCount`, the tallies, the
  recorded series) are `Nat`.
* The arithmetic executed on every tick (`update()`, `getDistance`, `tryInfect`, the
  day cadence of `updateSimulation`) is IEEE 754 binary64 arithmetic: each `+`, `-`,
  `*`, `/` is the exact operation followed by `roundDouble` (round to nearest, ties
  to even, with gradual underflow), `Math.sqrt` is `sqrtDouble` (the correctly
  rounded square root), and a decimal literal that is not a double (`0.8`) stands
  for the double nearest to it.  Comparisons, `Math.max`, `Math.min`, `Math.floor`
  and the sign change `* -1` are exact.  Overflow to `Infinity` and `NaN` are not
  modelled, except that `60 / 0` is `Infinity` in `statisticsDue`.
* `canvas.width - this.size` is an exact difference: a canvas width is an integer
  below `2 ^ 32` and `size` is 3.  The arithmetic of `createPeople` and of the
  constructor, executed once per agent, is exact too: the theorems use its results
  only through the statuses, the number of agents and the position bounds.
* `Math.random()` is an explicit source: a method that draws takes a function
  `next : σ → ℚ × σ` and the current source state, and returns the new source
  state.  The global simulation (`World`) carries the stream `random : Nat → ℚ`
  of values the successive calls return, and the number `drawn` of calls made.
* The `status` strings `'healthy'`, `'infected'`, `'recovered'`, `'vaccinated'`
  are the constructors of `Status`.
* The arrays `people` and the five series of `simulationData` are lists;
  `push` appends at the end and `shift` removes the head.
* DOM, canvas drawing and Chart.js calls are dropped, except the data the chart
  is given (`chart.data.labels` and the four `datasets[k].data`).
-/

namespace Epidemic

/-! ## Data model -/

/-- The values of `Person.status`. -/
inductive Status
  | healthy
  | infected
  | recovered
  | vaccinated
  deriving DecidableEq

/-- The global `params`. -/
structure Params where
  population : Nat
  infectionRate : ℚ
  recoveryRate : ℚ
  vaccinationRate : ℚ
  maskUsage : ℚ
  simulationSpeed : ℚ
  deriving DecidableEq

/-- The global `state`. -/
structure State where
  day : Nat
  frameCount : Nat
  lastTime : ℚ
  peakInfected : Nat
  fps : ℚ
  deriving DecidableEq

/-- The global `simulationData`: five parallel series. -/
structure SimulationData where
  days : List Nat
  healthy : List Nat
  infected : List Nat
  recovered : List Nat
  vaccinated : List Nat
  deriving DecidableEq

/-- The part of `canvas` the simulation reads. -/
structure Canvas where
  width : ℚ
  height : ℚ
  deriving DecidableEq

/-- The fields of a `Person` object. -/
structure Person where
  x : ℚ
  y : ℚ
  vx : ℚ
  vy : ℚ
  status : Status
  infectionTime : ℚ
  size : ℚ
  hasMask : Bool
  deriving DecidableEq

/-- The object `counts` of `updateStatistics`. -/
structure Counts where
  healthy : Nat
  infected : Nat
  recovered : Nat
  vaccinated : Nat
  deriving DecidableEq

/-- The mutable globals of the script. `chart` holds `chart.data.labels` (as `days`)
and the data of the four datasets. -/
structure World where
  canvas : Canvas
  isRunning : Bool
  people : List Person
  simulationData : SimulationData
  chart : SimulationData
  params : Params
  state : State
  random : Nat → ℚ
  drawn : Nat

/-! ## IEEE 754 binary64 arithmetic -/

/-- The power `2 ^ k` for an integer `k`. -/
def pow2 (k : Int) : ℚ :=
  if 0 ≤ k then ((2 ^ k.toNat : Nat) : ℚ) else 1 / ((2 ^ (-k).toNat : Nat) : ℚ)

/-- The loop of `log2`: halve `n` until it is below 2, at most `fuel` times. -/
def log2Loop : Nat → Nat → Nat
  | 0, _ => 0
  | fuel + 1, n => if n < 2 then 0 else log2Loop fuel (n / 2) + 1

/-- The number `e` with `2 ^ e ≤ n < 2 ^ (e + 1)`, for positive `n`. -/
def log2 (n : Nat) : Nat := log2Loop n n

/-- The integer `e` with `2 ^ e ≤ n / d < 2 ^ (e + 1)`, for positive `n` and `d`. -/
def ilog2 (n d : Nat) : Int :=
  let e0 : Int := (log2 n : Int) - (log2 d : Int)
  if (if 0 ≤ e0 then decide (n < d * 2 ^ e0.toNat)
      else decide (n * 2 ^ (-e0).toNat < d)) then e0 - 1
  else e0

/-- The integer nearest to `N / D`, the even one of the two on a tie. -/
def roundHalfEven (N D : Nat) : Nat :=
  let f := N / D
  let r := N % D
  if 2 * r < D then f else if D < 2 * r then f + 1 else if f % 2 = 0 then f else f + 1

/-- The double nearest to `n / d` (ties to even): a multiple of `2 ^ (e - 52)`, where
`2 ^ e ≤ n / d < 2 ^ (e + 1)` and `e` is at least `-1022` (gradual underflow). -/
def roundPos (n d : Nat) : ℚ :=
  if n = 0 then 0
  else
    let e := max (ilog2 n d) (-1022)
    let k := e - 52
    let m := if 0 ≤ k then roundHalfEven n (d * 2 ^ k.toNat)
      else roundHalfEven (n * 2 ^ (-k).toNat) d
    (m : ℚ) * pow2 k

/-- The double nearest to `q`, ties to even: the result of an arithmetic operation
whose exact value is `q`. -/
def roundDouble (q : ℚ) : ℚ :=
  if q < 0 then -roundPos q.num.natAbs q.den else roundPos q.num.natAbs q.den

/-- The loop of `isqrt`: the bits of the root, from bit `b - 1` down to bit 0. -/
def isqrtLoop (n : Nat) : Nat → Nat → Nat
  | 0, acc => acc
  | b + 1, acc =>
    isqrtLoop n b (if (acc + 2 ^ b) * (acc + 2 ^ b) ≤ n then acc + 2 ^ b else acc)

/-- The integer square root: the greatest `f` with `f * f ≤ n`. -/
def isqrt (n : Nat) : Nat := isqrtLoop n (log2 n / 2 + 1) 0

/-- The function `Math.sqrt` on a double `q ≥ 0`: the double nearest to the square root
of `q` (ties to even). With `2 ^ e ≤ √q < 2 ^ (e + 1)` and `k = e - 52`, it is
`m * 2 ^ k` for the integer `m` nearest to `√(q / 4 ^ k)`. -/
def sqrtDouble (q : ℚ) : ℚ :=
  if q ≤ 0 then 0
  else
    let n := q.num.natAbs
    let d := q.den
    let k := ilog2 n d / 2 - 52
    let N := if 0 ≤ k then n else n * 4 ^ (-k).toNat
    let D := if 0 ≤ k then d * 4 ^ k.toNat else d
    let f := isqrt (N / D)
    let m := if (2 * f + 1) * (2 * f + 1) * D < 4 * N then f + 1
      else if 4 * N < (2 * f + 1) * (2 * f + 1) * D then f
      else if f % 2 = 0 then f else f + 1
    (m : ℚ) * pow2 k

/-! ## Constants -/

def INFECTION_RADIUS : ℚ := 15

def PERSON_SIZE : ℚ := 3

/-- The source of `Math.random()` values of a `World`: the call number `k` returns
`random k`. -/
def seqNext (random : Nat → ℚ) (k : Nat) : ℚ × Nat := (random k, k + 1)

/-! ## The `Person` class -/

/-- The `constructor(x, y)` of `Person`: three draws (`vx`, `vy`, `hasMask`). -/
def Person.constructor {σ : Type} (P : Params) (next : σ → ℚ × σ) (x y : ℚ) (s : σ) :
    Person × σ :=
  let d1 := next s
  let d2 := next d1.2
  let d3 := next d2.2
  ({ x := x, y := y, vx := (d1.1 - 0.5) * 2, vy := (d2.1 - 0.5) * 2,
     status := Status.healthy, infectionTime := 0, size := PERSON_SIZE,
     hasMask := decide (d3.1 < P.maskUsage / 100) }, d3.2)

/-- First part of `update()`: "Update position" and "Bounce off walls". -/
def Person.updatePosition (P : Params) (c : Canvas) (this : Person) : Person :=
  let x := roundDouble (this.x + roundDouble (this.vx * P.simulationSpeed))
  let y := roundDouble (this.y + roundDouble (this.vy * P.simulationSpeed))
  let bx := decide (x ≤ this.size ∨ x ≥ c.width - this.size)
  let vx := if bx then this.vx * -1 else this.vx
  let x := if bx then max this.size (min (c.width - this.size) x) else x
  let by_ := decide (y ≤ this.size ∨ y ≥ c.height - this.size)
  let vy := if by_ then this.vy * -1 else this.vy
  let y := if by_ then max this.size (min (c.height - this.size) y) else y
  { this with x := x, y := y, vx := vx, vy := vy }

/-- Second part of `update()`: "Update infection status" with the recovery draw. -/
def Person.updateInfection {σ : Type} (P : Params) (next : σ → ℚ × σ) (this : Person)
    (s : σ) : Person × σ :=
  if this.status = Status.infected then
    let p := { this with
      infectionTime := roundDouble (this.infectionTime + P.simulationSpeed) }
    let d := next s
    if d.1 < roundDouble (roundDouble (P.recoveryRate * P.simulationSpeed) / 60) then
      ({ p with status := Status.recovered, infectionTime := 0 }, d.2)
    else (p, d.2)
  else (this, s)

/-- Third part of `update()`: "Vaccination logic (only for healthy people)". The draw
is made only when the status is `'healthy'` (short-circuit `&&`). -/
def Person.updateVaccination {σ : Type} (P : Params) (next : σ → ℚ × σ) (this : Person)
    (s : σ) : Person × σ :=
  if this.status = Status.healthy then
    let d := next s
    if d.1 < roundDouble (roundDouble (roundDouble
        (roundDouble (P.vaccinationRate / 100) * P.simulationSpeed) / 60) / 100) then
      ({ this with status := Status.vaccinated }, d.2)
    else (this, d.2)
  else (this, s)

/-- The method `update()`. -/
def Person.update {σ : Type} (P : Params) (c : Canvas) (next : σ → ℚ × σ) (this : Person)
    (s : σ) : Person × σ :=
  let r := Person.updateInfection P next (Person.updatePosition P c this) s
  Person.updateVaccination P next r.1 r.2

/-- The method `getDistance(other)`: every operation rounded, then `Math.sqrt`. -/
def Person.getDistance (this other : Person) : ℚ :=
  let dx := roundDouble (this.x - other.x)
  let dy := roundDouble (this.y - other.y)
  sqrtDouble (roundDouble (roundDouble (dx * dx) + roundDouble (dy * dy)))

/-- The method `canInfect(other)`. -/
def Person.canInfect (this other : Person) : Bool :=
  decide (this.status = Status.infected) &&
  decide (other.status = Status.healthy) &&
  decide (Person.getDistance this other < INFECTION_RADIUS)

/-- What a call `this.tryInfect(other)` leaves behind: both objects, the source of
random numbers and the returned boolean. -/
structure TryInfect (σ : Type) where
  self : Person
  other : Person
  rng : σ
  ret : Bool

/-- The value of `infectionProb` at the draw in `tryInfect`. -/
def Person.infectionProb (P : Params) (this other : Person) : ℚ :=
  let infectionProb := roundDouble
    (roundDouble (roundDouble (P.infectionRate / 100) * P.simulationSpeed) / 60)
  let maskEffectiveness : ℚ := roundDouble 0.8
  let infectionProb :=
    if this.hasMask then roundDouble (infectionProb * roundDouble (1 - maskEffectiveness))
    else infectionProb
  let infectionProb :=
    if other.hasMask then roundDouble (infectionProb * roundDouble (1 - maskEffectiveness))
    else infectionProb
  infectionProb

/-- The method `tryInfect(other)`. -/
def Person.tryInfect {σ : Type} (P : Params) (next : σ → ℚ × σ) (this other : Person)
    (s : σ) : TryInfect σ :=
  if !Person.canInfect this other then ⟨this, other, s, false⟩
  else
    let d := next s
    if d.1 < Person.infectionProb P this other then
      ⟨this, { other with status := Status.infected, infectionTime := 0 }, d.2, true⟩
    else ⟨this, other, d.2, false⟩

/-! ## `createPeople` -/

/-- The body of the `for` loop of `createPeople`: the person pushed, after the draws
for `x` and `y` and the three draws of the constructor. -/
def createPerson {σ : Type} (P : Params) (c : Canvas) (next : σ → ℚ × σ) (s : σ) :
    Person × σ :=
  let margin : ℚ := 20
  let d1 := next s
  let x := margin + d1.1 * (c.width - 2 * margin)
  let d2 := next d1.2
  let y := margin + d2.1 * (c.height - 2 * margin)
  Person.constructor P next x y d2.2

/-- The `for` loop of `createPeople`, with `n` iterations left. -/
def createPeopleLoop {σ : Type} (P : Params) (c : Canvas) (next : σ → ℚ × σ) :
    Nat → List Person → σ → List Person × σ
  | 0, people, s => (people, s)
  | n + 1, people, s =>
    let r := createPerson P c next s
    createPeopleLoop P c next n (people ++ [r.1]) r.2

/-- The statement `people[0].status = 'infected'`, guarded by `people.length > 0`. -/
def infectFirst : List Person → List Person
  | [] => []
  | p :: ps => { p with status := Status.infected } :: ps

/-- The function `createPeople()`. -/
def createPeople (w : World) : World :=
  let r := createPeopleLoop w.params w.canvas (seqNext w.random) w.params.population []
    w.drawn
  { w with people := infectFirst r.1, drawn := r.2 }

/-! ## `updateStatistics` -/

/-- The statement `counts[person.status]++`. -/
def Counts.increment (c : Counts) : Status → Counts
  | Status.healthy => { c with healthy := c.healthy + 1 }
  | Status.infected => { c with infected := c.infected + 1 }
  | Status.recovered => { c with recovered := c.recovered + 1 }
  | Status.vaccinated => { c with vaccinated := c.vaccinated + 1 }

/-- The tally `people.forEach(person => counts[person.status]++)` from all zeros. -/
def tally (people : List Person) : Counts :=
  people.foldl (fun c person => c.increment person.status) ⟨0, 0, 0, 0⟩

/-- The five `push` calls of `updateStatistics`. -/
def SimulationData.push (d : SimulationData) (day : Nat) (counts : Counts) :
    SimulationData :=
  { days := d.days ++ [day],
    healthy := d.healthy ++ [counts.healthy],
    infected := d.infected ++ [counts.infected],
    recovered := d.recovered ++ [counts.recovered],
    vaccinated := d.vaccinated ++ [counts.vaccinated] }

/-- The block "Keep only last 200 data points": five `shift` calls when
`days.length > 200`. -/
def SimulationData.trim (d : SimulationData) : SimulationData :=
  if d.days.length > 200 then
    { days := d.days.tail, healthy := d.healthy.tail, infected := d.infected.tail,
      recovered := d.recovered.tail, vaccinated := d.vaccinated.tail }
  else d

/-- The "Update chart data" part of `updateStatistics`: push, then trim. -/
def SimulationData.record (d : SimulationData) (day : Nat) (counts : Counts) :
    SimulationData :=
  (d.push day counts).trim

/-- The function `updateChart()`: the chart is given copies of the five series. -/
def updateChart (w : World) : World :=
  { w with chart := w.simulationData }

/-- The function `updateStatistics()`. -/
def updateStatistics (w : World) : World :=
  let counts := tally w.people
  let peak := if counts.infected > w.state.peakInfected then counts.infected
    else w.state.peakInfected
  updateChart
    { w with state := { w.state with peakInfected := peak },
             simulationData := w.simulationData.record w.state.day counts }

/-! ## `updateSimulation` -/

/-- The call `people.forEach(person => person.update())`. -/
def updateAll {σ : Type} (P : Params) (c : Canvas) (next : σ → ℚ × σ) :
    List Person → σ → List Person × σ
  | [], s => ([], s)
  | p :: ps, s =>
    let r := Person.update P c next p s
    let rs := updateAll P c next ps r.2
    (r.1 :: rs.1, rs.2)

/-- One iteration, at index `j`, of the inner loop of "Check for infections" for the
outer index `i`. `draw s i j` is what `Math.random()` returns, and the state of the
source afterwards, when called for the pair `(i, j)` in source state `s`. -/
def contactInner {σ : Type} (P : Params) (draw : σ → Nat → Nat → ℚ × σ) (i : Nat)
    (st : List Person × σ) (j : Nat) : List Person × σ :=
  if i = j then st
  else
    match st.1[i]?, st.1[j]? with
    | some a, some b =>
      let r := Person.tryInfect P (fun s => draw s i j) a b st.2
      ((st.1.set i r.self).set j r.other, r.rng)
    | _, _ => st

/-- One iteration, at index `i`, of the outer loop of "Check for infections". -/
def contactOuter {σ : Type} (P : Params) (draw : σ → Nat → Nat → ℚ × σ)
    (st : List Person × σ) (i : Nat) : List Person × σ :=
  match st.1[i]? with
  | some a =>
    if a.status ≠ Status.infected then st
    else (List.range st.1.length).foldl (contactInner P draw i) st
  | none => st

/-- The nested loop "Check for infections" of `updateSimulation`. -/
def contactPhase {σ : Type} (P : Params) (draw : σ → Nat → Nat → ℚ × σ)
    (people : List Person) (s : σ) : List Person × σ :=
  (List.range people.length).foldl (contactOuter P draw) (people, s)

/-- The condition `state.frameCount % Math.max(1, Math.floor(60 / params.simulationSpeed))
=== 0`, the quotient being the double `roundDouble (60 / simulationSpeed)`. For
`simulationSpeed = 0` the quotient is `Infinity`, and `n % Infinity` is `n`. -/
def statisticsDue (frameCount : Nat) (simulationSpeed : ℚ) : Bool :=
  if simulationSpeed = 0 then decide (frameCount = 0)
  else decide ((frameCount : Int) % max 1 ⌊roundDouble (60 / simulationSpeed)⌋ = 0)

/-- The two statements `updateStatistics(); state.day++;` guarded by that condition. -/
def dayStep (w : World) : World :=
  let w' := updateStatistics w
  { w' with state := { w'.state with day := w'.state.day + 1 } }

/-- The function `updateSimulation()`. -/
def updateSimulation (w : World) : World :=
  let r1 := updateAll w.params w.canvas (seqNext w.random) w.people w.drawn
  let r2 := contactPhase w.params (fun k _ _ => seqNext w.random k) r1.1 r1.2
  let w1 := { w with people := r2.1, drawn := r2.2 }
  let w2 :=
    if statisticsDue w1.state.frameCount w1.params.simulationSpeed then dayStep w1
    else w1
  { w2 with state := { w2.state with frameCount := w2.state.frameCount + 1 } }

/-- The statements `updateStatistics(); state.day++;` executed `n` times in a row:
`n` consecutive days are recorded. -/
def recordDays : Nat → World → World
  | 0, w => w
  | n + 1, w => recordDays n (dayStep w)

/-- The `n`-fold repetition of `updateSimulation()`. -/
def ticks : Nat → World → World
  | 0, w => w
  | n + 1, w => ticks n (updateSimulation w)

/-! ## Controls -/

/-- The function `pauseSimulation()`. -/
def pauseSimulation (w : World) : World :=
  if !w.isRunning then w else { w with isRunning := false }

/-- The empty series. -/
def SimulationData.empty : SimulationData := ⟨[], [], [], [], []⟩

/-- The function `resetSimulation()`. -/
def resetSimulation (w : World) : World :=
  let w := pauseSimulation w
  let w := { w with state := { w.state with day := 0, frameCount := 0, peakInfected := 0 } }
  let w := { w with simulationData := SimulationData.empty }
  let w := createPeople w
  let w := updateStatistics w
  { w with chart := SimulationData.empty }

/-- The five series of a history have the same length. -/
def SimulationData.aligned (d : SimulationData) : Prop :=
  d.healthy.length = d.days.length ∧ d.infected.length = d.days.length ∧
  d.recovered.length = d.days.length ∧ d.vaccinated.length = d.days.length

instance (d : SimulationData) : Decidable d.aligned := by
  unfold SimulationData.aligned
  infer_instance

/-- The predicate "the agent at index `i` of `people` is infected". -/
def infectedAt (people : List Person) (i : Nat) : Bool :=
  match people[i]? with
  | some a => decide (a.status = Status.infected)
  | none => false

/-- In the words of the refinement claim: the contact scan "whose outer loop ranges only
over the snapshot of agents infected at the start of the phase"; its inner loop is the
one of `updateSimulation`. -/
def snapshotContactPhase {σ : Type} (P : Params) (draw : σ → Nat → Nat → ℚ × σ)
    (people : List Person) (s : σ) : List Person × σ :=
  ((List.range people.length).filter (infectedAt people)).foldl
    (fun st i => (List.range st.1.length).foldl (contactInner P draw i) st) (people, s)

/-- A source of random numbers with "the random draw fixed per ordered pair `(i, j)`":
the draw for the pair `(i, j)` is `f i j`, whenever it is made. -/
def pairDraw (f : Nat → Nat → ℚ) : Unit → Nat → Nat → ℚ × Unit :=
  fun u i j => (f i j, u)

/-- The indices of the infected agents of `people`. -/
def infectedSet (people : List Person) : List Nat :=
  (List.range people.length).filter (infectedAt people)

/-- The person `b` is the person `a` at the same place with the same mask, with the same
status or infected where `a` is still healthy. -/
def Ahead (a b : Person) : Prop :=
  a.x = b.x ∧ a.y = b.y ∧ a.hasMask = b.hasMask ∧
    (a.status = b.status ∨ (a.status = Status.healthy ∧ b.status = Status.infected))

/-- Two lists of people of the same length whose entries at each index are related
by `R`. -/
def Pointwise (R : Person → Person → Prop) (l l' : List Person) : Prop :=
  l.length = l'.length ∧
    ∀ (k : Nat) (a b : Person), l[k]? = some a → l'[k]? = some b → R a b

/-- The status changes `healthy → infected`, `healthy → vaccinated` and
`infected → recovered`, or no change. -/
def Transition (s s' : Status) : Prop :=
  s' = s ∨ (s = Status.healthy ∧ s' = Status.infected) ∨
    (s = Status.healthy ∧ s' = Status.vaccinated) ∨
    (s = Status.infected ∧ s' = Status.recovered)

/-- What a status can become in the long run: `recovered` and `vaccinated` are kept, and
`infected` stays or becomes `recovered`. -/
def Later (s s' : Status) : Prop :=
  (s = Status.recovered → s' = Status.recovered) ∧
  (s = Status.vaccinated → s' = Status.vaccinated) ∧
  (s = Status.infected → s' = Status.infected ∨ s' = Status.recovered)

/-! ## Scenario data -/

/-- The initial value of `params` in the script. -/
def defaultParams : Params :=
  { population := 200, infectionRate := 2.5, recoveryRate := roundDouble 0.1,
    vaccinationRate := 0.5, maskUsage := 60, simulationSpeed := 1 }

/-- The initial value of `state` in the script. -/
def initialState : State :=
  { day := 0, frameCount := 0, lastTime := 0, peakInfected := 0, fps := 0 }

/-- A person as the constructor leaves it, at rest at `(x, y)`. -/
def personAt (x y : ℚ) (status : Status) : Person :=
  { x := x, y := y, vx := 0, vy := 0, status := status, infectionTime := 0,
    size := PERSON_SIZE, hasMask := false }

/-- A world on an 800 by 600 canvas with the script's initial `params` and `state`,
an empty history, the given people, and every `Math.random()` call returning `1/2`. -/
def sampleWorld (people : List Person) : World :=
  { canvas := ⟨800, 600⟩, isRunning := false, people := people,
    simulationData := SimulationData.empty, chart := SimulationData.empty,
    params := defaultParams, state := initialState, random := fun _ => 1 / 2, drawn := 0 }

/-- Two people, an infected one and a healthy one within the infection radius of each
other, in a world whose infection rate is zero. -/
def zeroRateWorld : World :=
  { sampleWorld [personAt 100 100 Status.infected, personAt 105 100 Status.healthy] with
    params := { defaultParams with infectionRate := 0 } }

/-- A world whose canvas has width and height 0 (its container is not laid out), with a
population of one. -/
def hiddenCanvasWorld : World :=
  { sampleWorld [] with
    canvas := ⟨0, 0⟩, params := { defaultParams with population := 1 } }

/-- A world with a population of three and a history left by an earlier run. -/
def smallWorld : World :=
  { sampleWorld [personAt 50 50 Status.recovered] with
    params := { defaultParams with population := 3 },
    state := { initialState with day := 7, frameCount := 12, peakInfected := 2 },
    simulationData := ⟨[5, 6], [1, 0], [0, 0], [0, 1], [0, 0]⟩ }

/-- The parameters of the transmission scenario: infection rate 100 and speed 60. -/
def certainParams : Params :=
  { defaultParams with infectionRate := 100, simulationSpeed := 60 }

/-- Two unmasked agents at the same point, the first infected and the second healthy,
with opposite horizontal velocities, under `certainParams`. -/
def partingWorld : World :=
  { sampleWorld [{ personAt 400 300 Status.infected with vx := 1 / 2 },
      { personAt 400 300 Status.healthy with vx := -1 / 2 }] with
    params := certainParams }

/-- Two unmasked agents at rest at the same point, the first infected and the second
healthy, under `certainParams`. -/
def meetingWorld : World :=
  { sampleWorld [personAt 400 300 Status.infected, personAt 400 300 Status.healthy] with
    params := certainParams }

/-- Three unmasked agents at rest on a line, 10 apart: the first infected, the others
healthy. The third is 20 away from the first, outside the infection radius. -/
def chainPeople : List Person :=
  [personAt 100 100 Status.infected, personAt 110 100 Status.healthy,
    personAt 120 100 Status.healthy]

/-- The world of `chainPeople` under `certainParams`. -/
def chainWorld : World :=
  { sampleWorld chainPeople with params := certainParams }

/-! ## Facts of double arithmetic -/

theorem roundDouble_zero : roundDouble 0 = 0 := by decide!

theorem roundDouble_one : roundDouble 1 = 1 := by decide!

/-- Rounding to nearest, ties to even, commutes with the change of sign. -/
theorem roundDouble_neg (q : ℚ) : roundDouble (-q) = -roundDouble q := by
  unfold roundDouble
  rw [Rat.neg_num, Rat.neg_den, Int.natAbs_neg]
  rcases lt_trichotomy q 0 with h | h | h
  · rw [if_neg (by linarith), if_pos h, neg_neg]
  · subst h
    simp [roundPos]
  · rw [if_pos (by linarith), if_neg (by linarith)]

theorem roundDouble_sixty : roundDouble 60 = 60 := by decide!

/-- The double written `0.8` and the double `1 - 0.8` of `tryInfect`, which is not the
double nearest to `0.2`. -/
theorem one_sub_maskEffectiveness :
    roundDouble 0.8 = 3602879701896397 / 4503599627370496 ∧
    roundDouble (1 - roundDouble 0.8) = 900719925474099 / 4503599627370496 ∧
    roundDouble (1 - roundDouble 0.8) < 0.2 ∧
    roundDouble 0.2 = 3602879701896397 / 18014398509481984 := by
  decide!

/-! ## Recording samples (C4) -/

theorem recordDays_succ (n : Nat) (w : World) :
    recordDays (n + 1) w = dayStep (recordDays n w) := by
  induction n generalizing w with
  | zero => rfl
  | succ n ih =>
    show recordDays (n + 1) (dayStep w) = _
    rw [ih (dayStep w)]
    rfl

theorem dayStep_simulationData (w : World) :
    (dayStep w).simulationData = w.simulationData.record w.state.day (tally w.people) := rfl

theorem dayStep_day (w : World) : (dayStep w).state.day = w.state.day + 1 := rfl

theorem record_of_lt (d : SimulationData) (day : Nat) (c : Counts)
    (h : d.days.length < 200) : d.record day c = d.push day c := by
  have hlen : ¬ (d.push day c).days.length > 200 := by
    simp [SimulationData.push]; omega
  simp only [SimulationData.record, SimulationData.trim, if_neg hlen]

theorem record_of_eq (d : SimulationData) (day : Nat) (c : Counts)
    (h : d.days.length = 200) :
    d.record day c =
      { days := (d.push day c).days.tail, healthy := (d.push day c).healthy.tail,
        infected := (d.push day c).infected.tail,
        recovered := (d.push day c).recovered.tail,
        vaccinated := (d.push day c).vaccinated.tail } := by
  have hlen : (d.push day c).days.length > 200 := by
    simp [SimulationData.push]; omega
  simp only [SimulationData.record, SimulationData.trim, if_pos hlen]

theorem tail_append_singleton {α : Type} (l : List α) (a : α) (h : 0 < l.length) :
    (l ++ [a]).tail = l.tail ++ [a] := by
  cases l with
  | nil => simp at h
  | cons b t => rfl

theorem range_scenario_tail : (List.range' 0 200 ++ [200]).tail = List.range' 1 200 := by
  have h : List.range' 0 201 = List.range' 0 200 ++ [200] :=
    (List.range'_concat 0 200 : List.range' 0 (200 + 1) 1 = _).trans (by norm_num)
  rw [← h]
  exact (congrArg List.tail (List.range'_succ 0 200 1)).trans rfl

theorem range_scenario_last : (List.range' 1 200).getLast? = some 200 := by
  have h : List.range' 1 200 = List.range' 1 199 ++ [200] :=
    (List.range'_concat 1 199 : List.range' 1 (199 + 1) 1 = _).trans (by norm_num)
  rw [h, List.getLast?_append]
  rfl

theorem range_scenario_head : (List.range' 1 200).head? = some 1 :=
  (congrArg List.head? (List.range'_succ 1 199 1)).trans rfl

/-- The five series of `recordDays n w`, while the cap of 200 is not reached. -/
theorem recordDays_below_cap (n : Nat) : ∀ w : World,
    w.simulationData.days.length + n ≤ 200 →
    (recordDays n w).simulationData.days
      = w.simulationData.days ++ List.range' w.state.day n ∧
    (recordDays n w).state.day = w.state.day + n := by
  induction n with
  | zero => intro w _; simp [recordDays]
  | succ n ih =>
    intro w h
    rw [recordDays_succ]
    obtain ⟨h1, h2⟩ := ih w (by omega)
    have hlen : (recordDays n w).simulationData.days.length < 200 := by
      rw [h1]; simp; omega
    refine ⟨?_, by rw [dayStep_day, h2]; omega⟩
    rw [dayStep_simulationData, record_of_lt _ _ _ hlen]
    simp [SimulationData.push, h1, h2, List.range'_concat]

theorem record_aligned (d : SimulationData) (day : Nat) (c : Counts) (h : d.aligned) :
    (d.record day c).aligned := by
  obtain ⟨h1, h2, h3, h4⟩ := h
  unfold SimulationData.record SimulationData.trim
  split <;> simp [SimulationData.aligned, SimulationData.push, h1, h2, h3, h4]

theorem record_length_le (d : SimulationData) (day : Nat) (c : Counts)
    (h : d.days.length ≤ 200) : (d.record day c).days.length ≤ 200 := by
  unfold SimulationData.record SimulationData.trim
  split
  · simp [SimulationData.push]; omega
  · omega

theorem recordDays_aligned (n : Nat) : ∀ w : World,
    w.simulationData.aligned → (recordDays n w).simulationData.aligned := by
  induction n with
  | zero => intro w h; exact h
  | succ n ih =>
    intro w h
    rw [recordDays_succ, dayStep_simulationData]
    exact record_aligned _ _ _ (ih w h)

/-- C4: one sample recorded by `updateStatistics` on a history of at most 200 aligned
entries gives the old entries followed by the new one, without the oldest entry when
there were 200; the series stay aligned and never exceed 200 entries; and recording the
days 0, 1, ..., 200 into an empty history leaves the 200 days 1, ..., 200. -/
theorem C4_record_fifo (w : World) (hn : w.simulationData.days.length ≤ 200)
    (ha : w.simulationData.aligned) :
    (w.simulationData.days.length < 200 →
      (updateStatistics w).simulationData
        = { days := w.simulationData.days ++ [w.state.day],
            healthy := w.simulationData.healthy ++ [(tally w.people).healthy],
            infected := w.simulationData.infected ++ [(tally w.people).infected],
            recovered := w.simulationData.recovered ++ [(tally w.people).recovered],
            vaccinated := w.simulationData.vaccinated ++ [(tally w.people).vaccinated] }) ∧
    (w.simulationData.days.length = 200 →
      (updateStatistics w).simulationData
        = { days := w.simulationData.days.tail ++ [w.state.day],
            healthy := w.simulationData.healthy.tail ++ [(tally w.people).healthy],
            infected := w.simulationData.infected.tail ++ [(tally w.people).infected],
            recovered := w.simulationData.recovered.tail ++ [(tally w.people).recovered],
            vaccinated :=
              w.simulationData.vaccinated.tail ++ [(tally w.people).vaccinated] }) ∧
    (updateStatistics w).simulationData.aligned ∧
    (updateStatistics w).simulationData.days.length ≤ 200 ∧
    (∀ w0 : World, w0.simulationData = SimulationData.empty → w0.state.day = 0 →
      (recordDays 201 w0).simulationData.days = List.range' 1 200 ∧
      (recordDays 201 w0).simulationData.aligned ∧
      (recordDays 201 w0).simulationData.days.length = 200 ∧
      (recordDays 201 w0).simulationData.days.head? = some 1 ∧
      (recordDays 201 w0).simulationData.days.getLast? = some 200) := by
  have hus : (updateStatistics w).simulationData
      = w.simulationData.record w.state.day (tally w.people) := rfl
  refine ⟨?_, ?_, ?_, ?_, ?_⟩
  · intro h
    rw [hus, record_of_lt _ _ _ h]
    rfl
  · intro h
    obtain ⟨h1, h2, h3, h4⟩ := ha
    rw [hus, record_of_eq _ _ _ h]
    simp only [SimulationData.push]
    rw [tail_append_singleton _ _ (by omega), tail_append_singleton _ _ (by omega),
      tail_append_singleton _ _ (by omega), tail_append_singleton _ _ (by omega),
      tail_append_singleton _ _ (by omega)]
  · rw [hus]; exact record_aligned _ _ _ ha
  · rw [hus]; exact record_length_le _ _ _ hn
  · intro w0 he hd
    have hal : (recordDays 201 w0).simulationData.aligned :=
      recordDays_aligned 201 w0 (by rw [he]; simp [SimulationData.aligned, SimulationData.empty])
    have h200 := recordDays_below_cap 200 w0 (by rw [he]; simp [SimulationData.empty])
    rw [he, hd] at h200
    obtain ⟨hdays, hday⟩ := h200
    have hlen : (recordDays 200 w0).simulationData.days.length = 200 := by
      rw [hdays]; simp [SimulationData.empty]
    have hres : (recordDays 201 w0).simulationData.days = List.range' 1 200 := by
      rw [recordDays_succ, dayStep_simulationData, record_of_eq _ _ _ hlen]
      simp only [SimulationData.push, hdays, hday, SimulationData.empty, List.nil_append,
        Nat.zero_add]
      exact range_scenario_tail
    refine ⟨hres, hal, ?_, ?_, ?_⟩
    · rw [hres]; simp
    · rw [hres]; exact range_scenario_head
    · rw [hres]; exact range_scenario_last

/-- C4 at a world holding one recorded day: the hypotheses hold there, and the history
stays within the cap and aligned. -/
theorem C4_record_fifo_witness :
    ((dayStep (sampleWorld [personAt 5 5 Status.infected])).simulationData.days.length ≤ 200 ∧
      (dayStep (sampleWorld [personAt 5 5 Status.infected])).simulationData.aligned) ∧
    (updateStatistics
      (dayStep (sampleWorld [personAt 5 5 Status.infected]))).simulationData.aligned ∧
    (updateStatistics
      (dayStep (sampleWorld [personAt 5 5 Status.infected]))).simulationData.days.length
        ≤ 200 :=
  ⟨⟨by decide, by decide⟩,
    (C4_record_fifo (dayStep (sampleWorld [personAt 5 5 Status.infected]))
      (by decide) (by decide)).2.2.1,
    (C4_record_fifo (dayStep (sampleWorld [personAt 5 5 Status.infected]))
      (by decide) (by decide)).2.2.2.1⟩

/-! ## Pointwise relations between the people before and after a phase -/

theorem pointwise_refl {R : Person → Person → Prop} (hR : ∀ a, R a a) (l : List Person) :
    Pointwise R l l :=
  ⟨rfl, fun k a b ha hb => by
    rw [ha] at hb
    cases hb
    exact hR a⟩

theorem pointwise_comp {R1 R2 R3 : Person → Person → Prop} {l1 l2 l3 : List Person}
    (h12 : Pointwise R1 l1 l2) (h23 : Pointwise R2 l2 l3)
    (hR : ∀ a b c, R1 a b → R2 b c → R3 a c) : Pointwise R3 l1 l3 := by
  refine ⟨h12.1.trans h23.1, fun k a c ha hc => ?_⟩
  have hk : k < l2.length := by
    have := (List.getElem?_eq_some_iff.1 ha).1
    rw [← h12.1]; exact this
  have hb : l2[k]? = some l2[k] := List.getElem?_eq_getElem hk
  exact hR a l2[k] c (h12.2 k a _ ha hb) (h23.2 k _ c hb hc)

theorem pointwise_mono {R1 R2 : Person → Person → Prop} {l1 l2 : List Person}
    (h : Pointwise R1 l1 l2) (hR : ∀ a b, R1 a b → R2 a b) : Pointwise R2 l1 l2 :=
  ⟨h.1, fun k a b ha hb => hR a b (h.2 k a b ha hb)⟩

theorem set_of_getElem? {l : List Person} {i : Nat} {a : Person} (h : l[i]? = some a) :
    l.set i a = l := by
  apply List.ext_getElem?
  intro k
  rw [List.getElem?_set]
  split
  · rename_i hik
    subst hik
    rw [if_pos (List.getElem?_eq_some_iff.1 h).1, h]
  · rfl

theorem pointwise_set {R : Person → Person → Prop} (hR : ∀ a, R a a) {l : List Person}
    {j : Nat} {b b' : Person} (hj : l[j]? = some b) (hb : R b b') :
    Pointwise R l (l.set j b') := by
  refine ⟨by simp, fun k a c ha hc => ?_⟩
  rw [List.getElem?_set] at hc
  split at hc
  · rename_i hjk
    subst hjk
    split at hc
    · cases hc
      rw [hj] at ha
      cases ha
      exact hb
    · cases hc
  · rw [ha] at hc
    cases hc
    exact hR a

theorem foldl_pointwise {σ : Type} {R : Person → Person → Prop} (hR : ∀ a, R a a)
    (hT : ∀ a b c, R a b → R b c → R a c)
    (f : List Person × σ → Nat → List Person × σ)
    (hf : ∀ st k, Pointwise R st.1 (f st k).1) (l : List Nat) :
    ∀ st : List Person × σ, Pointwise R st.1 (l.foldl f st).1 := by
  induction l with
  | nil => intro st; exact pointwise_refl hR _
  | cons k t ih =>
    intro st
    exact pointwise_comp (hf st k) (ih (f st k)) hT

theorem tryInfect_self {σ : Type} (P : Params) (next : σ → ℚ × σ) (a b : Person) (s : σ) :
    (Person.tryInfect P next a b s).self = a := by
  unfold Person.tryInfect
  split
  · rfl
  · dsimp only
    split <;> rfl

theorem contactInner_pointwise {σ : Type} {R : Person → Person → Prop} (hR : ∀ a, R a a)
    (P : Params) (draw : σ → Nat → Nat → ℚ × σ)
    (hstep : ∀ i j a b s, R b (Person.tryInfect P (fun s => draw s i j) a b s).other)
    (i : Nat) (st : List Person × σ) (j : Nat) :
    Pointwise R st.1 (contactInner P draw i st j).1 := by
  unfold contactInner
  split
  · exact pointwise_refl hR _
  · split
    · rename_i a b ha hb
      simp only [tryInfect_self, set_of_getElem? ha]
      exact pointwise_set hR hb (hstep i j a b st.2)
    · exact pointwise_refl hR _

theorem contactOuter_pointwise {σ : Type} {R : Person → Person → Prop} (hR : ∀ a, R a a)
    (hT : ∀ a b c, R a b → R b c → R a c)
    (P : Params) (draw : σ → Nat → Nat → ℚ × σ)
    (hstep : ∀ i j a b s, R b (Person.tryInfect P (fun s => draw s i j) a b s).other)
    (st : List Person × σ) (i : Nat) :
    Pointwise R st.1 (contactOuter P draw st i).1 := by
  unfold contactOuter
  split
  · split
    · exact pointwise_refl hR _
    · exact foldl_pointwise hR hT _ (contactInner_pointwise hR P draw hstep i) _ st
  · exact pointwise_refl hR _

theorem contactPhase_pointwise {σ : Type} {R : Person → Person → Prop} (hR : ∀ a, R a a)
    (hT : ∀ a b c, R a b → R b c → R a c)
    (P : Params) (draw : σ → Nat → Nat → ℚ × σ)
    (hstep : ∀ i j a b s, R b (Person.tryInfect P (fun s => draw s i j) a b s).other)
    (people : List Person) (s : σ) :
    Pointwise R people (contactPhase P draw people s).1 :=
  foldl_pointwise hR hT _ (contactOuter_pointwise hR hT P draw hstep) _ (people, s)

theorem updateAll_pointwise {σ : Type} {R : Person → Person → Prop}
    (P : Params) (c : Canvas) (next : σ → ℚ × σ)
    (hstep : ∀ p s, R p (Person.update P c next p s).1) (people : List Person) :
    ∀ s : σ, Pointwise R people (updateAll P c next people s).1 := by
  induction people with
  | nil => intro s; exact ⟨rfl, fun k a b ha _ => by simp at ha⟩
  | cons p ps ih =>
    intro s
    have h := ih (Person.update P c next p s).2
    refine ⟨by simp [updateAll, h.1], fun k a b ha hb => ?_⟩
    cases k with
    | zero =>
      simp only [updateAll, List.getElem?_cons_zero, Option.some.injEq] at ha hb
      subst ha hb
      exact hstep _ _
    | succ k =>
      simp only [updateAll, List.getElem?_cons_succ] at ha hb
      exact h.2 k a b ha hb

theorem updateSimulation_people (w : World) :
    (updateSimulation w).people
      = (contactPhase w.params (fun k _ _ => seqNext w.random k)
          (updateAll w.params w.canvas (seqNext w.random) w.people w.drawn).1
          (updateAll w.params w.canvas (seqNext w.random) w.people w.drawn).2).1 := by
  unfold updateSimulation
  simp only
  split <;> rfl

/-! ## Status changes of the methods -/

theorem updatePosition_status (P : Params) (c : Canvas) (p : Person) :
    (Person.updatePosition P c p).status = p.status := rfl

theorem updateInfection_status {σ : Type} (P : Params) (next : σ → ℚ × σ) (p : Person)
    (s : σ) :
    (Person.updateInfection P next p s).1.status = p.status ∨
      (p.status = Status.infected ∧
        (Person.updateInfection P next p s).1.status = Status.recovered) := by
  unfold Person.updateInfection
  split
  · rename_i h
    dsimp only
    split
    · exact Or.inr ⟨h, rfl⟩
    · exact Or.inl rfl
  · exact Or.inl rfl

theorem updateVaccination_status {σ : Type} (P : Params) (next : σ → ℚ × σ) (p : Person)
    (s : σ) :
    (Person.updateVaccination P next p s).1.status = p.status ∨
      (p.status = Status.healthy ∧
        (Person.updateVaccination P next p s).1.status = Status.vaccinated) := by
  unfold Person.updateVaccination
  split
  · rename_i h
    dsimp only
    split
    · exact Or.inr ⟨h, rfl⟩
    · exact Or.inl rfl
  · exact Or.inl rfl

/-- A call of `update()` keeps the status, or recovers an infected person, or vaccinates
a healthy one. -/
theorem update_status {σ : Type} (P : Params) (c : Canvas) (next : σ → ℚ × σ) (p : Person)
    (s : σ) :
    (Person.update P c next p s).1.status = p.status ∨
      (p.status = Status.infected ∧ (Person.update P c next p s).1.status = Status.recovered) ∨
      (p.status = Status.healthy ∧
        (Person.update P c next p s).1.status = Status.vaccinated) := by
  unfold Person.update
  dsimp only
  have h1 := updateInfection_status P next (Person.updatePosition P c p) s
  have h2 := updateVaccination_status P next
    (Person.updateInfection P next (Person.updatePosition P c p) s).1
    (Person.updateInfection P next (Person.updatePosition P c p) s).2
  rw [updatePosition_status] at h1
  rcases h1 with h1 | ⟨h1, h1'⟩
  · rcases h2 with h2 | ⟨h2, h2'⟩
    · exact Or.inl (h2.trans h1)
    · exact Or.inr (Or.inr ⟨h1 ▸ h2, h2'⟩)
  · rcases h2 with h2 | ⟨h2, _⟩
    · exact Or.inr (Or.inl ⟨h1, h2.trans h1'⟩)
    · rw [h1'] at h2
      cases h2

/-- A call of `tryInfect` keeps the status of `other` or turns it from healthy to
infected. -/
theorem tryInfect_status {σ : Type} (P : Params) (next : σ → ℚ × σ) (a b : Person) (s : σ) :
    (Person.tryInfect P next a b s).other.status = b.status ∨
      (b.status = Status.healthy ∧
        (Person.tryInfect P next a b s).other.status = Status.infected) := by
  unfold Person.tryInfect
  split
  · exact Or.inl rfl
  · rename_i h
    dsimp only
    split
    · refine Or.inr ⟨?_, rfl⟩
      simp only [Person.canInfect, Bool.not_eq_true, Bool.not_eq_false', Bool.and_eq_true,
        decide_eq_true_eq] at h
      exact h.1.2
    · exact Or.inl rfl

theorem transition_refl (s : Status) : Transition s s := Or.inl rfl

theorem later_refl (s : Status) : Later s s :=
  ⟨fun h => h, fun h => h, fun h => Or.inl h⟩

theorem later_trans (a b c : Status) (h1 : Later a b) (h2 : Later b c) : Later a c := by
  obtain ⟨r1, v1, i1⟩ := h1
  obtain ⟨r2, v2, i2⟩ := h2
  refine ⟨fun h => r2 (r1 h), fun h => v2 (v1 h), fun h => ?_⟩
  rcases i1 h with h' | h'
  · exact i2 h'
  · exact Or.inr (r2 h')

theorem later_of_transition (a b : Status) (h : Transition a b) : Later a b := by
  rcases h with h | ⟨h, h'⟩ | ⟨h, h'⟩ | ⟨h, h'⟩
  · subst h; exact later_refl _
  · subst h h'; exact ⟨nofun, nofun, nofun⟩
  · subst h h'; exact ⟨nofun, nofun, nofun⟩
  · subst h h'; exact ⟨nofun, nofun, fun _ => Or.inr rfl⟩

/-- The statuses before and after the contact phase: unchanged, or healthy to infected. -/
theorem contactPhase_status {σ : Type} (P : Params) (draw : σ → Nat → Nat → ℚ × σ)
    (people : List Person) (s : σ) :
    Pointwise (fun a b => b.status = a.status ∨
        (a.status = Status.healthy ∧ b.status = Status.infected))
      people (contactPhase P draw people s).1 := by
  apply contactPhase_pointwise
  · intro a; exact Or.inl rfl
  · intro a b c h1 h2
    rcases h1 with h1 | ⟨h1, h1'⟩
    · rcases h2 with h2 | ⟨h2, h2'⟩
      · exact Or.inl (h2.trans h1)
      · exact Or.inr ⟨h1 ▸ h2, h2'⟩
    · rcases h2 with h2 | ⟨h2, _⟩
      · exact Or.inr ⟨h1, h2.trans h1'⟩
      · rw [h1'] at h2
        cases h2
  · intro i j a b s
    exact tryInfect_status P _ a b s

/-- The statuses before and after one `updateSimulation()`. -/
theorem updateSimulation_transition (w : World) :
    Pointwise (fun a b => Transition a.status b.status) w.people
      (updateSimulation w).people := by
  rw [updateSimulation_people]
  have hu : Pointwise (fun a b => b.status = a.status ∨
      (a.status = Status.infected ∧ b.status = Status.recovered) ∨
      (a.status = Status.healthy ∧ b.status = Status.vaccinated)) w.people
      (updateAll w.params w.canvas (seqNext w.random) w.people w.drawn).1 :=
    updateAll_pointwise w.params w.canvas (seqNext w.random)
      (fun p s => update_status w.params w.canvas (seqNext w.random) p s) w.people w.drawn
  refine pointwise_comp hu (contactPhase_status w.params _ _ _) ?_
  intro a b c h1 h2
  rcases h1 with h1 | ⟨h1, h1'⟩ | ⟨h1, h1'⟩
  · rcases h2 with h2 | ⟨h2, h2'⟩
    · exact Or.inl (h2.trans h1)
    · exact Or.inr (Or.inl ⟨h1 ▸ h2, h2'⟩)
  · rcases h2 with h2 | ⟨h2, _⟩
    · exact Or.inr (Or.inr (Or.inr ⟨h1, h2.trans h1'⟩))
    · rw [h1'] at h2
      cases h2
  · rcases h2 with h2 | ⟨h2, _⟩
    · exact Or.inr (Or.inr (Or.inl ⟨h1, h2.trans h1'⟩))
    · rw [h1'] at h2
      cases h2

theorem ticks_later (n : Nat) : ∀ w : World,
    Pointwise (fun a b => Later a.status b.status) w.people (ticks n w).people := by
  induction n with
  | zero => intro w; exact pointwise_refl (fun a => later_refl a.status) _
  | succ n ih =>
    intro w
    exact pointwise_comp (updateSimulation_transition w) (ih (updateSimulation w))
      (fun a b c h1 h2 => later_trans _ _ _ (later_of_transition _ _ h1) h2)

/-! ## What a tick leaves unchanged -/

theorem updateSimulation_params (w : World) : (updateSimulation w).params = w.params := by
  unfold updateSimulation
  dsimp only
  split <;> rfl

theorem updateSimulation_random (w : World) : (updateSimulation w).random = w.random := by
  unfold updateSimulation
  dsimp only
  split <;> rfl

theorem updateSimulation_canvas (w : World) : (updateSimulation w).canvas = w.canvas := by
  unfold updateSimulation
  dsimp only
  split <;> rfl

theorem ticks_succ (n : Nat) (w : World) :
    ticks (n + 1) w = updateSimulation (ticks n w) := by
  induction n generalizing w with
  | zero => rfl
  | succ n ih =>
    show ticks (n + 1) (updateSimulation w) = _
    rw [ih (updateSimulation w)]
    rfl

theorem ticks_params (n : Nat) : ∀ w : World, (ticks n w).params = w.params := by
  induction n with
  | zero => intro w; rfl
  | succ n ih => intro w; exact (ih (updateSimulation w)).trans (updateSimulation_params w)

theorem ticks_random (n : Nat) : ∀ w : World, (ticks n w).random = w.random := by
  induction n with
  | zero => intro w; rfl
  | succ n ih => intro w; exact (ih (updateSimulation w)).trans (updateSimulation_random w)

/-! ## Status transitions (C8) -/

/-- C8: over one `updateSimulation()` every agent keeps its status or goes
healthy → infected, healthy → vaccinated or infected → recovered; hence over any number
of ticks recovered and vaccinated agents keep their status and an infected agent is
still infected or recovered; and inside one `update()` call the status changes at most
once: a person who recovers in the call ends it recovered, not vaccinated. -/
theorem C8_status_transitions (w : World) :
    Pointwise (fun a b => Transition a.status b.status) w.people
      (updateSimulation w).people ∧
    (∀ n : Nat, Pointwise (fun a b => Later a.status b.status) w.people
      (ticks n w).people) ∧
    (∀ (P : Params) (c : Canvas) (p : Person) (k : Nat),
      Person.update P c (seqNext w.random) p k
        = Person.updateVaccination P (seqNext w.random)
            (Person.updateInfection P (seqNext w.random) (Person.updatePosition P c p) k).1
            (Person.updateInfection P (seqNext w.random) (Person.updatePosition P c p) k).2 ∧
      (Person.updatePosition P c p).status = p.status ∧
      ((Person.updateInfection P (seqNext w.random)
          (Person.updatePosition P c p) k).1.status = p.status ∨
        (Person.update P c (seqNext w.random) p k).1.status
          = (Person.updateInfection P (seqNext w.random)
              (Person.updatePosition P c p) k).1.status) ∧
      ((Person.updateInfection P (seqNext w.random)
          (Person.updatePosition P c p) k).1.status ≠ p.status →
        (Person.update P c (seqNext w.random) p k).1.status = Status.recovered)) := by
  refine ⟨updateSimulation_transition w, fun n => ticks_later n w, ?_⟩
  intro P c p k
  have h1 := updateInfection_status P (seqNext w.random) (Person.updatePosition P c p) k
  have h2 := updateVaccination_status P (seqNext w.random)
    (Person.updateInfection P (seqNext w.random) (Person.updatePosition P c p) k).1
    (Person.updateInfection P (seqNext w.random) (Person.updatePosition P c p) k).2
  rw [updatePosition_status] at h1
  have hu : Person.update P c (seqNext w.random) p k
      = Person.updateVaccination P (seqNext w.random)
          (Person.updateInfection P (seqNext w.random) (Person.updatePosition P c p) k).1
          (Person.updateInfection P (seqNext w.random) (Person.updatePosition P c p) k).2 :=
    rfl
  refine ⟨hu, rfl, ?_, ?_⟩
  · rw [hu]
    rcases h1 with h1 | ⟨_, h1'⟩
    · exact Or.inl h1
    · rcases h2 with h2 | ⟨h2, _⟩
      · exact Or.inr h2
      · rw [h1'] at h2
        cases h2
  · intro hne
    rw [hu]
    rcases h1 with h1 | ⟨_, h1'⟩
    · exact absurd h1 hne
    · rcases h2 with h2 | ⟨h2, _⟩
      · exact h2.trans h1'
      · rw [h1'] at h2
        cases h2

/-! ## The tally (C2) -/

theorem tally_foldl (people : List Person) : ∀ c : Counts,
    (people.foldl (fun c person => c.increment person.status) c).healthy
      + (people.foldl (fun c person => c.increment person.status) c).infected
      + (people.foldl (fun c person => c.increment person.status) c).recovered
      + (people.foldl (fun c person => c.increment person.status) c).vaccinated
      = c.healthy + c.infected + c.recovered + c.vaccinated + people.length := by
  induction people with
  | nil => intro c; rfl
  | cons p ps ih =>
    intro c
    rw [List.foldl_cons, ih (c.increment p.status), List.length_cons]
    cases hs : p.status <;> simp only [Counts.increment] <;> omega

theorem tally_sum (people : List Person) :
    (tally people).healthy + (tally people).infected + (tally people).recovered
      + (tally people).vaccinated = people.length := by
  have h := tally_foldl people ⟨0, 0, 0, 0⟩
  simpa [tally] using h

theorem createPeopleLoop_spec {σ : Type} (P : Params) (c : Canvas) (next : σ → ℚ × σ)
    (Q : Person → Prop) (hQ : ∀ s, Q (createPerson P c next s).1) (n : Nat) :
    ∀ (people : List Person) (s : σ), ∃ L : List Person,
      (createPeopleLoop P c next n people s).1 = people ++ L ∧ L.length = n ∧
      ∀ p ∈ L, Q p := by
  induction n with
  | zero => intro people s; exact ⟨[], by simp [createPeopleLoop], rfl, by simp⟩
  | succ n ih =>
    intro people s
    obtain ⟨L, h1, h2, h3⟩ := ih (people ++ [(createPerson P c next s).1])
      (createPerson P c next s).2
    refine ⟨(createPerson P c next s).1 :: L, ?_, by simp [h2], ?_⟩
    · show (createPeopleLoop P c next n _ _).1 = _
      rw [h1]; simp
    · intro p hp
      rcases List.mem_cons.1 hp with hp | hp
      · subst hp; exact hQ s
      · exact h3 p hp

theorem infectFirst_length (l : List Person) : (infectFirst l).length = l.length := by
  cases l <;> rfl

theorem createPeople_length (w : World) :
    (createPeople w).people.length = w.params.population := by
  obtain ⟨L, h1, h2, _⟩ := createPeopleLoop_spec w.params w.canvas (seqNext w.random)
    (fun _ => True) (fun _ => trivial) w.params.population [] w.drawn
  show (infectFirst _).length = _
  rw [infectFirst_length, h1]
  simpa using h2

theorem ticks_length (n : Nat) (w : World) : (ticks n w).people.length = w.people.length :=
  (ticks_later n w).1.symm

/-- C2: at every tick of a run started by `createPeople`, the four counts tallied by
`updateStatistics` add up to the number of agents, which is still the configured
population; the tally of any list of people counts each person exactly once. -/
theorem C2_counts_sum (w : World) (n : Nat) :
    (tally (ticks n (createPeople w)).people).healthy
      + (tally (ticks n (createPeople w)).people).infected
      + (tally (ticks n (createPeople w)).people).recovered
      + (tally (ticks n (createPeople w)).people).vaccinated
      = (ticks n (createPeople w)).people.length ∧
    (ticks n (createPeople w)).people.length = w.params.population ∧
    (∀ (people : List Person) (p : Person),
      (tally (people ++ [p])).healthy + (tally (people ++ [p])).infected
        + (tally (people ++ [p])).recovered + (tally (people ++ [p])).vaccinated
      = (tally people).healthy + (tally people).infected + (tally people).recovered
        + (tally people).vaccinated + 1) := by
  refine ⟨tally_sum _, ?_, ?_⟩
  · rw [ticks_length, createPeople_length]
  · intro people p
    rw [tally_sum, tally_sum]
    simp

/-! ## Infection rate zero (C5) -/

theorem infectionProb_of_rate_zero (P : Params) (h : P.infectionRate = 0) (a b : Person) :
    Person.infectionProb P a b = 0 := by
  unfold Person.infectionProb
  dsimp only
  rw [h]
  split <;> split <;> simp only [zero_div, zero_mul, roundDouble_zero]

theorem tryInfect_of_rate_zero {σ : Type} (P : Params) (h : P.infectionRate = 0)
    (next : σ → ℚ × σ) (hn : ∀ s, 0 ≤ (next s).1) (a b : Person) (s : σ) :
    (Person.tryInfect P next a b s).other = b := by
  unfold Person.tryInfect
  split
  · rfl
  · dsimp only
    rw [infectionProb_of_rate_zero P h, if_neg (not_lt.2 (hn s))]

/-- With infection rate zero and non-negative draws, one tick keeps every status or
recovers an infected agent or vaccinates a healthy one. -/
theorem updateSimulation_of_rate_zero (w : World) (h : w.params.infectionRate = 0)
    (hr : ∀ k, 0 ≤ w.random k) :
    Pointwise (fun a b => b.status = a.status ∨
        (a.status = Status.infected ∧ b.status = Status.recovered) ∨
        (a.status = Status.healthy ∧ b.status = Status.vaccinated))
      w.people (updateSimulation w).people := by
  rw [updateSimulation_people]
  have hu : Pointwise (fun a b => b.status = a.status ∨
      (a.status = Status.infected ∧ b.status = Status.recovered) ∨
      (a.status = Status.healthy ∧ b.status = Status.vaccinated)) w.people
      (updateAll w.params w.canvas (seqNext w.random) w.people w.drawn).1 :=
    updateAll_pointwise w.params w.canvas (seqNext w.random)
      (fun p s => update_status w.params w.canvas (seqNext w.random) p s) w.people w.drawn
  have hc : Pointwise (fun a b => b = a)
      (updateAll w.params w.canvas (seqNext w.random) w.people w.drawn).1
      (contactPhase w.params (fun k _ _ => seqNext w.random k)
        (updateAll w.params w.canvas (seqNext w.random) w.people w.drawn).1
        (updateAll w.params w.canvas (seqNext w.random) w.people w.drawn).2).1 :=
    @contactPhase_pointwise Nat (fun a b => b = a) (fun _ => rfl)
      (fun a b c h1 h2 => h2.trans h1) w.params (fun k _ _ => seqNext w.random k)
      (fun i j a b s => tryInfect_of_rate_zero w.params h _ (fun k => hr k) a b s) _ _
  exact pointwise_comp hu hc (fun a b c h1 h2 => by subst h2; exact h1)

/-- C5: with `params.infectionRate = 0` and draws that are never negative, no tick of
any run turns a healthy agent into an infected one, and the agents infected after any
number of ticks were all infected at the start. -/
theorem C5_zero_rate_no_infection (w : World) (h : w.params.infectionRate = 0)
    (hr : ∀ k, 0 ≤ w.random k) (n : Nat) :
    Pointwise (fun a b => ¬ (a.status = Status.healthy ∧ b.status = Status.infected))
      (ticks n w).people (updateSimulation (ticks n w)).people ∧
    Pointwise (fun a b => b.status = Status.infected → a.status = Status.infected)
      w.people (ticks n w).people := by
  constructor
  · have h' : (ticks n w).params.infectionRate = 0 := by rw [ticks_params]; exact h
    have hr' : ∀ k, 0 ≤ (ticks n w).random k := by rw [ticks_random]; exact hr
    refine pointwise_mono (updateSimulation_of_rate_zero _ h' hr') ?_
    intro a b hab hc
    rcases hab with hab | ⟨_, hab⟩ | ⟨_, hab⟩
    · rw [hab, hc.1] at hc
      cases hc.2
    · rw [hab] at hc
      cases hc.2
    · rw [hab] at hc
      cases hc.2
  · induction n generalizing w with
    | zero => exact pointwise_refl (fun _ hh => hh) _
    | succ n ih =>
      have h' : (updateSimulation w).params.infectionRate = 0 := by
        rw [updateSimulation_params]; exact h
      have hr' : ∀ k, 0 ≤ (updateSimulation w).random k := by
        rw [updateSimulation_random]; exact hr
      refine pointwise_comp (updateSimulation_of_rate_zero w h hr) (ih _ h' hr') ?_
      intro a b c hab hbc hc
      have hb := hbc hc
      rcases hab with hab | ⟨_, hab⟩ | ⟨_, hab⟩
      · exact hab ▸ hb
      · rw [hab] at hb
        cases hb
      · rw [hab] at hb
        cases hb

/-- C5 at `zeroRateWorld`: after three ticks the healthy agent next to the infected one
is not infected. -/
theorem C5_zero_rate_no_infection_witness :
    zeroRateWorld.params.infectionRate = 0 ∧ (∀ k, 0 ≤ zeroRateWorld.random k) ∧
    Pointwise (fun a b => b.status = Status.infected → a.status = Status.infected)
      zeroRateWorld.people (ticks 3 zeroRateWorld).people :=
  ⟨rfl, fun _ => by norm_num [zeroRateWorld, sampleWorld],
    (C5_zero_rate_no_infection zeroRateWorld rfl
      (fun _ => by norm_num [zeroRateWorld, sampleWorld]) 3).2⟩

/-! ## The cadence of simulated days (C10) -/

theorem updateSimulation_frameCount (w : World) :
    (updateSimulation w).state.frameCount = w.state.frameCount + 1 := by
  unfold updateSimulation
  dsimp only
  split <;> rfl

theorem updateSimulation_of_due (w : World)
    (h : statisticsDue w.state.frameCount w.params.simulationSpeed = true) :
    (updateSimulation w).state.day = w.state.day + 1 ∧
    (updateSimulation w).simulationData
      = w.simulationData.record w.state.day (tally (updateSimulation w).people) := by
  unfold updateSimulation
  dsimp only
  rw [if_pos h]
  exact ⟨rfl, rfl⟩

theorem updateSimulation_of_not_due (w : World)
    (h : statisticsDue w.state.frameCount w.params.simulationSpeed = false) :
    (updateSimulation w).state.day = w.state.day ∧
    (updateSimulation w).simulationData = w.simulationData := by
  unfold updateSimulation
  dsimp only
  rw [if_neg (by rw [h]; simp)]
  exact ⟨rfl, rfl⟩

theorem statisticsDue_of_pos (frameCount : Nat) (speed : ℚ) (h : 0 < speed) :
    statisticsDue frameCount speed = true ↔
      (frameCount : Int) % max 1 ⌊roundDouble (60 / speed)⌋ = 0 := by
  unfold statisticsDue
  rw [if_neg (ne_of_gt h)]
  simp

/-- C10 as stated fails: from frame count 0 at speed 1 a tick makes the frame count 1,
which is not a multiple of 60, and yet the day advances. -/
theorem C10_counterexample :
    ¬ ((updateSimulation (sampleWorld [])).state.day = (sampleWorld []).state.day + 1 ↔
      ((updateSimulation (sampleWorld [])).state.frameCount : Int)
        % max 1 ⌊roundDouble (60 / (sampleWorld []).params.simulationSpeed)⌋ = 0) := by
  decide!

/-- C10, amended: for `simulationSpeed > 0` a tick increases `frameCount` by one, and the
day elapses exactly when the frame count before the increment is a multiple of
`max(1, floor(60 / simulationSpeed))`, the quotient being the double the division gives
(`roundDouble`): then the day increases by one and one sample (the day before its
increment, the tally of the people after the tick) is recorded; otherwise day and history
are unchanged. At the doubles written 0.1 and 0.8 the period is 600 and 75 frames. -/
theorem C10_day_cadence (w : World) (hs : 0 < w.params.simulationSpeed) :
    (updateSimulation w).state.frameCount = w.state.frameCount + 1 ∧
    ((w.state.frameCount : Int)
        % max 1 ⌊roundDouble (60 / w.params.simulationSpeed)⌋ = 0 →
      (updateSimulation w).state.day = w.state.day + 1 ∧
      (updateSimulation w).simulationData
        = w.simulationData.record w.state.day (tally (updateSimulation w).people)) ∧
    (¬ (w.state.frameCount : Int)
        % max 1 ⌊roundDouble (60 / w.params.simulationSpeed)⌋ = 0 →
      (updateSimulation w).state.day = w.state.day ∧
      (updateSimulation w).simulationData = w.simulationData) ∧
    max 1 ⌊roundDouble (60 / roundDouble 0.1)⌋ = 600 ∧
    max 1 ⌊roundDouble (60 / roundDouble 0.8)⌋ = 75 := by
  refine ⟨updateSimulation_frameCount w, fun h => ?_, fun h => ?_, by decide!, by decide!⟩
  · exact updateSimulation_of_due w ((statisticsDue_of_pos _ _ hs).2 h)
  · apply updateSimulation_of_not_due
    cases hd : statisticsDue w.state.frameCount w.params.simulationSpeed
    · rfl
    · exact absurd ((statisticsDue_of_pos _ _ hs).1 hd) h

/-- C10 at the initial world: speed 1 is positive and the first tick makes the frame
count 1. -/
theorem C10_day_cadence_witness :
    0 < (sampleWorld []).params.simulationSpeed ∧
    (updateSimulation (sampleWorld [])).state.frameCount = 1 :=
  ⟨by norm_num [sampleWorld, defaultParams],
    (C10_day_cadence (sampleWorld []) (by norm_num [sampleWorld, defaultParams])).1⟩

/-! ## The contact model (C7) -/

theorem canInfect_iff (a b : Person) :
    Person.canInfect a b = true ↔
      a.status = Status.infected ∧ b.status = Status.healthy ∧
      Person.getDistance a b < INFECTION_RADIUS := by
  simp [Person.canInfect, and_assoc]

/-- The probability used by `tryInfect`: the rounded base probability, multiplied and
rounded once per mask worn. -/
theorem infectionProb_eq (P : Params) (a b : Person) :
    Person.infectionProb P a b
      = if a.hasMask = true then
          (if b.hasMask = true then
            roundDouble (roundDouble
              (roundDouble (roundDouble (roundDouble (P.infectionRate / 100)
                * P.simulationSpeed) / 60) * roundDouble (1 - roundDouble 0.8))
              * roundDouble (1 - roundDouble 0.8))
          else
            roundDouble (roundDouble (roundDouble (roundDouble (P.infectionRate / 100)
              * P.simulationSpeed) / 60) * roundDouble (1 - roundDouble 0.8)))
        else
          (if b.hasMask = true then
            roundDouble (roundDouble (roundDouble (roundDouble (P.infectionRate / 100)
              * P.simulationSpeed) / 60) * roundDouble (1 - roundDouble 0.8))
          else
            roundDouble (roundDouble (roundDouble (P.infectionRate / 100)
              * P.simulationSpeed) / 60)) := by
  unfold Person.infectionProb
  cases a.hasMask <;> cases b.hasMask <;> rfl

theorem tryInfect_ret_iff {σ : Type} (P : Params) (next : σ → ℚ × σ) (a b : Person) (s : σ) :
    (Person.tryInfect P next a b s).ret = true ↔
      Person.canInfect a b = true ∧ (next s).1 < Person.infectionProb P a b := by
  unfold Person.tryInfect
  cases hc : Person.canInfect a b
  · simp
  · by_cases hd : (next s).1 < Person.infectionProb P a b <;> simp [hd]

theorem tryInfect_of_ret {σ : Type} (P : Params) (next : σ → ℚ × σ) (a b : Person) (s : σ)
    (h : (Person.tryInfect P next a b s).ret = true) :
    Person.tryInfect P next a b s
      = ⟨a, { b with status := Status.infected, infectionTime := 0 }, (next s).2, true⟩ := by
  obtain ⟨hc, hd⟩ := (tryInfect_ret_iff P next a b s).1 h
  unfold Person.tryInfect
  simp [hc, hd]

theorem tryInfect_of_not_ret {σ : Type} (P : Params) (next : σ → ℚ × σ) (a b : Person)
    (s : σ) (h : (Person.tryInfect P next a b s).ret = false) :
    (Person.tryInfect P next a b s).other = b := by
  unfold Person.tryInfect at h ⊢
  split
  · rfl
  · rename_i hc
    rw [if_neg hc] at h
    dsimp only at h ⊢
    split
    · rename_i hd
      rw [if_pos hd] at h
      cases h
    · rfl

/-- C7 as stated fails, twice. (1) An infected agent at the origin and a healthy one at
`(7.733678636111847, 12.852634545234187)`, unmasked, rate 100, speed 60, draw 1/2: the
Euclidean distance is below 15 and the draw below the probability 1, but the distance
`getDistance` computes is exactly 15 and `tryInfect` returns false. (2) With the infected
agent masked, a healthy one 5 away and the draw `900719925474099 / 2 ^ 52`: the draw is
below `100 / 100 * 60 / 60 * (1 - 0.8)`, but the double `1 - 0.8` is that very draw and
`tryInfect` returns false. -/
theorem C7_counterexample :
    (((0 : ℚ) - roundDouble 7.733678636111847) * (0 - roundDouble 7.733678636111847)
        + (0 - roundDouble 12.852634545234187) * (0 - roundDouble 12.852634545234187)
        < 15 * 15 ∧
      (1 / 2 : ℚ) < 100 / 100 * 60 / 60 * (1 - 0.8) ^ 0 ∧
      Person.getDistance (personAt 0 0 Status.infected)
        (personAt (roundDouble 7.733678636111847) (roundDouble 12.852634545234187)
          Status.healthy) = 15 ∧
      (Person.tryInfect certainParams (seqNext fun _ => 1 / 2)
        (personAt 0 0 Status.infected)
        (personAt (roundDouble 7.733678636111847) (roundDouble 12.852634545234187)
          Status.healthy) 0).ret = false) ∧
    ((900719925474099 / 4503599627370496 : ℚ) < 100 / 100 * 60 / 60 * (1 - 0.8) ^ 1 ∧
      Person.getDistance { personAt 0 0 Status.infected with hasMask := true }
        (personAt 5 0 Status.healthy) = 5 ∧
      Person.infectionProb certainParams { personAt 0 0 Status.infected with hasMask := true }
        (personAt 5 0 Status.healthy) = 900719925474099 / 4503599627370496 ∧
      (Person.tryInfect certainParams (seqNext fun _ => 900719925474099 / 4503599627370496)
        { personAt 0 0 Status.infected with hasMask := true }
        (personAt 5 0 Status.healthy) 0).ret = false) := by
  decide!

/-- C7, amended: `a.tryInfect(b)` returns true exactly when `a` is infected, `b` is
healthy, the distance computed by `getDistance` (each operation rounded to a double, then
`Math.sqrt`) is below 15, and the draw is below the computed `infectionProb`:
`infectionRate / 100 * simulationSpeed / 60` with each operation rounded, multiplied by the
double `1 - 0.8` and rounded once per mask worn; then `b` becomes infected with
`infectionTime = 0`; otherwise `b` is unchanged; `a` is never modified. -/
theorem C7_tryInfect {σ : Type} (P : Params) (next : σ → ℚ × σ) (a b : Person) (s : σ) :
    ((Person.tryInfect P next a b s).ret = true ↔
      a.status = Status.infected ∧ b.status = Status.healthy ∧
      sqrtDouble (roundDouble
        (roundDouble (roundDouble (a.x - b.x) * roundDouble (a.x - b.x))
          + roundDouble (roundDouble (a.y - b.y) * roundDouble (a.y - b.y)))) < 15 ∧
      (next s).1 <
        if a.hasMask = true then
          (if b.hasMask = true then
            roundDouble (roundDouble
              (roundDouble (roundDouble (roundDouble (P.infectionRate / 100)
                * P.simulationSpeed) / 60) * roundDouble (1 - roundDouble 0.8))
              * roundDouble (1 - roundDouble 0.8))
          else
            roundDouble (roundDouble (roundDouble (roundDouble (P.infectionRate / 100)
              * P.simulationSpeed) / 60) * roundDouble (1 - roundDouble 0.8)))
        else
          (if b.hasMask = true then
            roundDouble (roundDouble (roundDouble (roundDouble (P.infectionRate / 100)
              * P.simulationSpeed) / 60) * roundDouble (1 - roundDouble 0.8))
          else
            roundDouble (roundDouble (roundDouble (P.infectionRate / 100)
              * P.simulationSpeed) / 60))) ∧
    ((Person.tryInfect P next a b s).ret = true →
      (Person.tryInfect P next a b s).other
        = { b with status := Status.infected, infectionTime := 0 }) ∧
    ((Person.tryInfect P next a b s).ret = false →
      (Person.tryInfect P next a b s).other = b) ∧
    (Person.tryInfect P next a b s).self = a := by
  refine ⟨?_, fun h => ?_, tryInfect_of_not_ret P next a b s, tryInfect_self P next a b s⟩
  · rw [tryInfect_ret_iff, canInfect_iff, infectionProb_eq]
    have h15 : INFECTION_RADIUS = 15 := rfl
    rw [h15]
    simp only [Person.getDistance, and_assoc]
  · rw [tryInfect_of_ret P next a b s h]

/-! ## Positions stay in the arena (C3) -/

theorem updateInfection_fields {σ : Type} (P : Params) (next : σ → ℚ × σ) (p : Person)
    (s : σ) :
    (Person.updateInfection P next p s).1.x = p.x ∧
    (Person.updateInfection P next p s).1.y = p.y ∧
    (Person.updateInfection P next p s).1.size = p.size := by
  unfold Person.updateInfection
  split
  · dsimp only
    split <;> exact ⟨rfl, rfl, rfl⟩
  · exact ⟨rfl, rfl, rfl⟩

theorem updateVaccination_fields {σ : Type} (P : Params) (next : σ → ℚ × σ) (p : Person)
    (s : σ) :
    (Person.updateVaccination P next p s).1.x = p.x ∧
    (Person.updateVaccination P next p s).1.y = p.y ∧
    (Person.updateVaccination P next p s).1.size = p.size := by
  unfold Person.updateVaccination
  split
  · dsimp only
    split <;> exact ⟨rfl, rfl, rfl⟩
  · exact ⟨rfl, rfl, rfl⟩

theorem update_fields {σ : Type} (P : Params) (c : Canvas) (next : σ → ℚ × σ) (p : Person)
    (s : σ) :
    (Person.update P c next p s).1.x = (Person.updatePosition P c p).x ∧
    (Person.update P c next p s).1.y = (Person.updatePosition P c p).y ∧
    (Person.update P c next p s).1.size = p.size := by
  unfold Person.update
  dsimp only
  obtain ⟨h1, h2, h3⟩ := updateInfection_fields P next (Person.updatePosition P c p) s
  obtain ⟨k1, k2, k3⟩ := updateVaccination_fields P next
    (Person.updateInfection P next (Person.updatePosition P c p) s).1
    (Person.updateInfection P next (Person.updatePosition P c p) s).2
  exact ⟨k1.trans h1, k2.trans h2, k3.trans h3⟩

/-- The clamp of "Bounce off walls" on one coordinate. -/
theorem bounce_bounds (size limit x : ℚ) (h : size ≤ limit - size) :
    size ≤ (if decide (x ≤ size ∨ x ≥ limit - size) = true
        then max size (min (limit - size) x) else x) ∧
    (if decide (x ≤ size ∨ x ≥ limit - size) = true
        then max size (min (limit - size) x) else x) ≤ limit - size := by
  split
  · exact ⟨le_max_left _ _, max_le h (min_le_left _ _)⟩
  · rename_i hb
    simp only [decide_eq_true_eq, not_or, not_le] at hb
    exact ⟨le_of_lt hb.1, le_of_lt hb.2⟩

theorem updatePosition_bounds (P : Params) (c : Canvas) (p : Person)
    (hw : p.size ≤ c.width - p.size) (hh : p.size ≤ c.height - p.size) :
    p.size ≤ (Person.updatePosition P c p).x ∧
    (Person.updatePosition P c p).x ≤ c.width - p.size ∧
    p.size ≤ (Person.updatePosition P c p).y ∧
    (Person.updatePosition P c p).y ≤ c.height - p.size := by
  have hx := bounce_bounds p.size c.width
    (roundDouble (p.x + roundDouble (p.vx * P.simulationSpeed))) hw
  have hy := bounce_bounds p.size c.height
    (roundDouble (p.y + roundDouble (p.vy * P.simulationSpeed))) hh
  exact ⟨hx.1, hx.2, hy.1, hy.2⟩

theorem createPerson_fields {σ : Type} (P : Params) (c : Canvas) (next : σ → ℚ × σ) (s : σ) :
    (createPerson P c next s).1.x = 20 + (next s).1 * (c.width - 2 * 20) ∧
    (createPerson P c next s).1.y = 20 + (next (next s).2).1 * (c.height - 2 * 20) ∧
    (createPerson P c next s).1.size = PERSON_SIZE ∧
    (createPerson P c next s).1.status = Status.healthy :=
  ⟨rfl, rfl, rfl, rfl⟩

theorem margin_bounds (r limit : ℚ) (h0 : 0 ≤ r) (h1 : r < 1) (h : 23 ≤ limit) :
    3 ≤ 20 + r * (limit - 2 * 20) ∧ 20 + r * (limit - 2 * 20) ≤ limit - 3 := by
  have ha : 0 ≤ r * (limit - 23) := mul_nonneg h0 (by linarith)
  have hb : 0 ≤ (1 - r) * (limit - 23) := mul_nonneg (by linarith) (by linarith)
  constructor <;> nlinarith

theorem infectFirst_fields (l : List Person) (Q : Person → Prop)
    (hQ : ∀ p, Q p → Q { p with status := Status.infected }) (h : ∀ p ∈ l, Q p) :
    ∀ p ∈ infectFirst l, Q p := by
  cases l with
  | nil => exact h
  | cons a t =>
    intro p hp
    rcases List.mem_cons.1 hp with hp | hp
    · subst hp
      exact hQ a (h a (List.mem_cons_self _ _))
    · exact h p (List.mem_cons_of_mem _ hp)

/-- C3 as stated fails: on a canvas of width and height 0 (where `createPeople`, with
draws 1/2, puts its agent at the origin) an `update()` leaves the agent at x = 3, which is
not at most `width - 3`; the created agent itself is at x = 0, below 3. -/
theorem C3_counterexample :
    ¬ (∀ p ∈ (createPeople hiddenCanvasWorld).people,
        PERSON_SIZE ≤ p.x ∧ p.x ≤ hiddenCanvasWorld.canvas.width - PERSON_SIZE) ∧
    ¬ (∀ p ∈ (createPeople hiddenCanvasWorld).people,
        PERSON_SIZE ≤ (Person.update hiddenCanvasWorld.params hiddenCanvasWorld.canvas
            (seqNext hiddenCanvasWorld.random) p 5).1.x ∧
        (Person.update hiddenCanvasWorld.params hiddenCanvasWorld.canvas
            (seqNext hiddenCanvasWorld.random) p 5).1.x
          ≤ hiddenCanvasWorld.canvas.width - PERSON_SIZE) := by
  decide!

/-- C3, amended: on a canvas at least 6 wide and 6 high, after `update()` an agent of size
`PERSON_SIZE = 3` has `3 ≤ x ≤ width - 3` and `3 ≤ y ≤ height - 3`, for every prior
position, velocity and speed; on a canvas at least 23 wide and 23 high, with draws in
`[0, 1)`, the same bounds hold for every agent just created by `createPeople`. -/
theorem C3_position_bounds (c : Canvas) (hw : 6 ≤ c.width) (hh : 6 ≤ c.height) :
    (∀ (P : Params) (next : Nat → ℚ × Nat) (p : Person) (s : Nat), p.size = PERSON_SIZE →
      PERSON_SIZE ≤ (Person.update P c next p s).1.x ∧
      (Person.update P c next p s).1.x ≤ c.width - PERSON_SIZE ∧
      PERSON_SIZE ≤ (Person.update P c next p s).1.y ∧
      (Person.update P c next p s).1.y ≤ c.height - PERSON_SIZE) ∧
    (∀ w : World, w.canvas = c → 23 ≤ c.width → 23 ≤ c.height →
      (∀ k, 0 ≤ w.random k ∧ w.random k < 1) →
      ∀ p ∈ (createPeople w).people,
        PERSON_SIZE ≤ p.x ∧ p.x ≤ c.width - PERSON_SIZE ∧
        PERSON_SIZE ≤ p.y ∧ p.y ≤ c.height - PERSON_SIZE) := by
  constructor
  · intro P next p s hsize
    obtain ⟨hx, hy, _⟩ := update_fields P c next p s
    have hb := updatePosition_bounds P c p
      (by rw [hsize]; norm_num [PERSON_SIZE]; linarith)
      (by rw [hsize]; norm_num [PERSON_SIZE]; linarith)
    rw [hx, hy, ← hsize]
    exact hb
  · intro w hc hw' hh' hr
    obtain ⟨L, h1, _, h3⟩ := createPeopleLoop_spec w.params w.canvas (seqNext w.random)
      (fun p => PERSON_SIZE ≤ p.x ∧ p.x ≤ c.width - PERSON_SIZE ∧
        PERSON_SIZE ≤ p.y ∧ p.y ≤ c.height - PERSON_SIZE)
      (fun s => by
        obtain ⟨hx, hy, _, _⟩ := createPerson_fields w.params w.canvas (seqNext w.random) s
        rw [hx, hy, hc]
        have bx := margin_bounds (seqNext w.random s).1 c.width (hr _).1 (hr _).2 hw'
        have by_ := margin_bounds (seqNext w.random (seqNext w.random s).2).1 c.height
          (hr _).1 (hr _).2 hh'
        simp only [PERSON_SIZE]
        exact ⟨bx.1, bx.2, by_.1, by_.2⟩)
      w.params.population [] w.drawn
    apply infectFirst_fields
    · intro p hp; exact hp
    · intro p hp
      rw [h1] at hp
      exact h3 p (by simpa using hp)

/-- C3 on the 800 by 600 canvas: an agent at rest at (5, 5) stays within the bounds. -/
theorem C3_position_bounds_witness :
    ((6 : ℚ) ≤ (⟨800, 600⟩ : Canvas).width ∧ (6 : ℚ) ≤ (⟨800, 600⟩ : Canvas).height) ∧
    PERSON_SIZE ≤ (Person.update defaultParams ⟨800, 600⟩ (seqNext fun _ => 1 / 2)
      (personAt 5 5 Status.healthy) 0).1.x :=
  ⟨⟨by norm_num, by norm_num⟩,
    ((C3_position_bounds ⟨800, 600⟩ (by norm_num) (by norm_num)).1 defaultParams
      (seqNext fun _ => 1 / 2) (personAt 5 5 Status.healthy) 0 rfl).1⟩

/-! ## Reset (C1) -/

theorem tally_foldl_healthy (people : List Person) (h : ∀ p ∈ people, p.status = Status.healthy) :
    ∀ c : Counts, people.foldl (fun c person => c.increment person.status) c
      = { c with healthy := c.healthy + people.length } := by
  induction people with
  | nil => intro c; rfl
  | cons p ps ih =>
    intro c
    rw [List.foldl_cons, ih (fun q hq => h q (List.mem_cons_of_mem _ hq)),
      h p (List.mem_cons_self _ _)]
    simp only [Counts.increment, List.length_cons]
    congr 1
    omega

theorem tally_seeded (p : Person) (ps : List Person) (hp : p.status = Status.infected)
    (h : ∀ q ∈ ps, q.status = Status.healthy) :
    tally (p :: ps) = ⟨ps.length, 1, 0, 0⟩ := by
  unfold tally
  rw [List.foldl_cons, hp, tally_foldl_healthy ps h]
  simp [Counts.increment]

/-- What `createPeople` leaves in `people` when the population is at least one: the
first agent infected, all others healthy. -/
theorem createPeople_seeded (w : World) (hpop : 1 ≤ w.params.population) :
    ∃ (p : Person) (ps : List Person), (createPeople w).people = p :: ps ∧
      p.status = Status.infected ∧ (∀ q ∈ ps, q.status = Status.healthy) ∧
      ps.length + 1 = w.params.population := by
  obtain ⟨L, h1, h2, h3⟩ := createPeopleLoop_spec w.params w.canvas (seqNext w.random)
    (fun p => p.status = Status.healthy) (fun _ => rfl) w.params.population [] w.drawn
  have hpeople : (createPeople w).people = infectFirst L := by
    show infectFirst _ = _
    rw [h1]; rfl
  cases L with
  | nil => simp at h2; omega
  | cons a t =>
    refine ⟨{ a with status := Status.infected }, t, hpeople, rfl, ?_, by simpa using h2⟩
    intro q hq
    exact h3 q (List.mem_cons_of_mem _ hq)

theorem pauseSimulation_fields (w : World) :
    (pauseSimulation w).params = w.params ∧ (pauseSimulation w).canvas = w.canvas ∧
    (pauseSimulation w).random = w.random ∧ (pauseSimulation w).drawn = w.drawn ∧
    (pauseSimulation w).isRunning = false := by
  unfold pauseSimulation
  split
  · rename_i h
    refine ⟨rfl, rfl, rfl, rfl, ?_⟩
    simpa using h
  · exact ⟨rfl, rfl, rfl, rfl, rfl⟩

/-- The people `resetSimulation` leaves are those `createPeople` makes from the current
parameters, canvas and random source. -/
theorem resetSimulation_people (w : World) :
    (resetSimulation w).people = (createPeople w).people := by
  obtain ⟨h1, h2, h3, h4, _⟩ := pauseSimulation_fields w
  show infectFirst (createPeopleLoop (pauseSimulation w).params (pauseSimulation w).canvas
    (seqNext (pauseSimulation w).random) (pauseSimulation w).params.population []
    (pauseSimulation w).drawn).1 = _
  rw [h1, h2, h3, h4]
  rfl

theorem resetSimulation_fields (w : World) :
    (resetSimulation w).state.day = 0 ∧ (resetSimulation w).state.frameCount = 0 ∧
    (resetSimulation w).state.peakInfected
      = (if (tally (resetSimulation w).people).infected > 0
          then (tally (resetSimulation w).people).infected else 0) ∧
    (resetSimulation w).simulationData
      = SimulationData.empty.record 0 (tally (resetSimulation w).people) ∧
    (resetSimulation w).chart = SimulationData.empty ∧
    (resetSimulation w).isRunning = false ∧
    (resetSimulation w).params = w.params :=
  ⟨rfl, rfl, rfl, rfl, rfl, (pauseSimulation_fields w).2.2.2.2, (pauseSimulation_fields w).1⟩

/-- C1 as stated fails: after `resetSimulation()` on a world with population 3 the peak
is 1 and the history already holds the sample of day 0. -/
theorem C1_counterexample :
    (resetSimulation smallWorld).state.peakInfected = 1 ∧
    (resetSimulation smallWorld).simulationData = ⟨[0], [2], [1], [0], [0]⟩ ∧
    ¬ ((resetSimulation smallWorld).state.peakInfected = 0 ∧
      (resetSimulation smallWorld).simulationData = SimulationData.empty) := by
  decide!

/-- C1, amended: with a configured population of at least one, after `resetSimulation()`
the day and the frame count are 0, `people` holds exactly `params.population` agents, the
first infected and all others healthy, and, because `resetSimulation` calls
`updateStatistics()` after recreating the people, the peak is 1 and the history holds
exactly one sample: day 0 with `population - 1` healthy, 1 infected, 0 recovered and
0 vaccinated. The data handed to the chart is empty. -/
theorem C1_reset (w : World) (hpop : 1 ≤ w.params.population) :
    (resetSimulation w).state.day = 0 ∧ (resetSimulation w).state.frameCount = 0 ∧
    (resetSimulation w).state.peakInfected = 1 ∧
    (resetSimulation w).simulationData
      = ⟨[0], [w.params.population - 1], [1], [0], [0]⟩ ∧
    (resetSimulation w).chart = SimulationData.empty ∧
    (resetSimulation w).people.length = w.params.population ∧
    (∃ (p : Person) (ps : List Person), (resetSimulation w).people = p :: ps ∧
      p.status = Status.infected ∧ ∀ q ∈ ps, q.status = Status.healthy) := by
  obtain ⟨p, ps, hpeople, hp, hps, hlen⟩ := createPeople_seeded w hpop
  obtain ⟨h1, h2, h3, h4, h5, _, _⟩ := resetSimulation_fields w
  have hreset : (resetSimulation w).people = p :: ps :=
    (resetSimulation_people w).trans hpeople
  have ht : tally (resetSimulation w).people = ⟨ps.length, 1, 0, 0⟩ := by
    rw [hreset]; exact tally_seeded p ps hp hps
  rw [ht] at h3 h4
  refine ⟨h1, h2, by simpa using h3, ?_, h5, ?_, p, ps, hreset, hp, hps⟩
  · rw [h4, record_of_lt _ _ _ (by simp [SimulationData.empty])]
    have : ps.length = w.params.population - 1 := by omega
    simp [SimulationData.push, SimulationData.empty, this]
  · rw [hreset]; simpa using hlen

/-- C1 at `smallWorld`: its population is 3, and after the reset three agents exist. -/
theorem C1_reset_witness :
    1 ≤ smallWorld.params.population ∧ (resetSimulation smallWorld).people.length = 3 :=
  ⟨by decide, (C1_reset smallWorld (by decide)).2.2.2.2.2.1⟩

/-! ## Certain transmission (C6) -/

theorem infectionProb_certain (P : Params) (hrate : P.infectionRate = 100)
    (hspeed : P.simulationSpeed = 60) (a b : Person) (ha : a.hasMask = false)
    (hb : b.hasMask = false) : Person.infectionProb P a b = 1 := by
  have e1 : roundDouble ((100 : ℚ) / 100) = 1 := by decide!
  have e2 : roundDouble ((1 : ℚ) * 60) = 60 := by decide!
  have e3 : roundDouble ((60 : ℚ) / 60) = 1 := by decide!
  rw [infectionProb_eq, ha, hb, hrate, hspeed, e1, e2, e3]
  rfl

theorem tryInfect_of_canInfect {σ : Type} (P : Params) (next : σ → ℚ × σ) (a b : Person)
    (s : σ) (hc : Person.canInfect a b = true)
    (hd : (next s).1 < Person.infectionProb P a b) :
    Person.tryInfect P next a b s
      = ⟨a, { b with status := Status.infected, infectionTime := 0 }, (next s).2, true⟩ :=
  tryInfect_of_ret P next a b s ((tryInfect_ret_iff P next a b s).2 ⟨hc, hd⟩)

theorem tryInfect_of_not_canInfect {σ : Type} (P : Params) (next : σ → ℚ × σ)
    (a b : Person) (s : σ) (hc : Person.canInfect a b = false) :
    Person.tryInfect P next a b s = ⟨a, b, s, false⟩ := by
  unfold Person.tryInfect
  simp [hc]

/-- The distance `getDistance` computes is the same in both directions. -/
theorem getDistance_comm (a b : Person) :
    Person.getDistance a b = Person.getDistance b a := by
  have hx : roundDouble (a.x - b.x) = -roundDouble (b.x - a.x) := by
    rw [← roundDouble_neg, neg_sub]
  have hy : roundDouble (a.y - b.y) = -roundDouble (b.y - a.y) := by
    rw [← roundDouble_neg, neg_sub]
  unfold Person.getDistance
  simp only [hx, hy, neg_mul_neg]

theorem update_hasMask {σ : Type} (P : Params) (c : Canvas) (next : σ → ℚ × σ) (p : Person)
    (s : σ) : (Person.update P c next p s).1.hasMask = p.hasMask := by
  unfold Person.update Person.updateVaccination Person.updateInfection
  dsimp only
  split <;> split <;> (try split) <;> (try split) <;> rfl

/-- The contact phase on two people of which one can infect the other, when each draw
is below the transmission probability: both end infected. -/
theorem contactPhase_pair {σ : Type} (P : Params) (draw : σ → Nat → Nat → ℚ × σ)
    (q0 q1 : Person) (s : σ)
    (hd : ∀ t i j, (draw t i j).1 < Person.infectionProb P q0 q1 ∧
      (draw t i j).1 < Person.infectionProb P q1 q0)
    (hst : (q0.status = Status.infected ∧ q1.status = Status.healthy) ∨
      (q0.status = Status.healthy ∧ q1.status = Status.infected))
    (hdist : Person.getDistance q0 q1 < INFECTION_RADIUS) :
    (contactPhase P draw [q0, q1] s).1.map (fun p => p.status)
      = [Status.infected, Status.infected] := by
  have hrange : List.range 2 = [0, 1] := rfl
  rcases hst with ⟨h0, h1⟩ | ⟨h0, h1⟩
  · have hc : Person.canInfect q0 q1 = true := (canInfect_iff q0 q1).2 ⟨h0, h1, hdist⟩
    have hc' : Person.canInfect
        { q1 with status := Status.infected, infectionTime := 0 } q0 = false := by
      simp [Person.canInfect, h0]
    have e1 := tryInfect_of_canInfect P (fun t => draw t 0 1) q0 q1 s hc (hd s 0 1).1
    have e2 := fun t => tryInfect_of_not_canInfect P (fun t => draw t 1 0)
      { q1 with status := Status.infected, infectionTime := 0 } q0 t hc'
    simp [contactPhase, contactOuter, contactInner, hrange, h0, e1, e2]
  · have hc : Person.canInfect q1 q0 = true :=
      (canInfect_iff q1 q0).2 ⟨h1, h0, by rw [getDistance_comm]; exact hdist⟩
    have e1 := tryInfect_of_canInfect P (fun t => draw t 1 0) q1 q0 s hc (hd s 1 0).2
    simp [contactPhase, contactOuter, contactInner, hrange, h0, h1, e1]

/-- C6 as stated fails: two agents at the same point with velocities 1/2 and -1/2 are
120 apart after the motion of the tick (speed 60), so the healthy one is not infected,
with every draw equal to 1/2. -/
theorem C6_counterexample :
    partingWorld.people.map (fun p => (p.x, p.y, p.status, p.hasMask))
      = [(400, 300, Status.infected, false), (400, 300, Status.healthy, false)] ∧
    partingWorld.params.infectionRate = 100 ∧ partingWorld.params.simulationSpeed = 60 ∧
    (updateSimulation partingWorld).people.map (fun p => (p.x, p.status))
      = [(430, Status.infected), (370, Status.healthy)] := by
  decide!

/-- C6, amended: for two unmasked agents with `infectionRate = 100` and
`simulationSpeed = 60` the transmission probability `tryInfect` computes is exactly 1, and
whenever after the `update()` calls of the tick one of the two is infected, the other
healthy and the distance `getDistance` computes between them (in double arithmetic) is
below 15, both are infected after the tick, for all draws below 1. -/
theorem C6_certain_transmission (w : World) (p0 p1 : Person) (hpeople : w.people = [p0, p1])
    (hrate : w.params.infectionRate = 100) (hspeed : w.params.simulationSpeed = 60)
    (hr : ∀ k, w.random k < 1) (hm0 : p0.hasMask = false) (hm1 : p1.hasMask = false) :
    Person.infectionProb w.params p0 p1 = 1 ∧ Person.infectionProb w.params p1 p0 = 1 ∧
    ((((Person.update w.params w.canvas (seqNext w.random) p0 w.drawn).1.status
          = Status.infected ∧
        (Person.update w.params w.canvas (seqNext w.random) p1
          (Person.update w.params w.canvas (seqNext w.random) p0 w.drawn).2).1.status
          = Status.healthy) ∨
      ((Person.update w.params w.canvas (seqNext w.random) p0 w.drawn).1.status
          = Status.healthy ∧
        (Person.update w.params w.canvas (seqNext w.random) p1
          (Person.update w.params w.canvas (seqNext w.random) p0 w.drawn).2).1.status
          = Status.infected)) →
      Person.getDistance
          (Person.update w.params w.canvas (seqNext w.random) p0 w.drawn).1
          (Person.update w.params w.canvas (seqNext w.random) p1
            (Person.update w.params w.canvas (seqNext w.random) p0 w.drawn).2).1
        < INFECTION_RADIUS →
      (updateSimulation w).people.map (fun p => p.status)
        = [Status.infected, Status.infected]) := by
  refine ⟨infectionProb_certain _ hrate hspeed _ _ hm0 hm1,
    infectionProb_certain _ hrate hspeed _ _ hm1 hm0, fun hst hdist => ?_⟩
  rw [updateSimulation_people, hpeople]
  apply contactPhase_pair _ _ _ _ _ _ hst hdist
  intro t i j
  rw [infectionProb_certain _ hrate hspeed _ _ (by rw [update_hasMask]; exact hm0)
      (by rw [update_hasMask]; exact hm1),
    infectionProb_certain _ hrate hspeed _ _ (by rw [update_hasMask]; exact hm1)
      (by rw [update_hasMask]; exact hm0)]
  exact ⟨hr t, hr t⟩

/-- C6 at `meetingWorld`: the two agents at rest at the same point are both infected
after one tick. -/
theorem C6_certain_transmission_witness :
    (updateSimulation meetingWorld).people.map (fun p => p.status)
      = [Status.infected, Status.infected] :=
  (C6_certain_transmission meetingWorld (personAt 400 300 Status.infected)
    (personAt 400 300 Status.healthy) rfl (by decide!) (by decide!)
    (fun _ => by norm_num [meetingWorld, sampleWorld]) rfl rfl).2.2
    (by decide!) (by decide!)

/-! ## The in-place contact scan and the snapshot scan (C9) -/

/-- C9 as stated fails: with every draw equal to 1/2 under `certainParams`, the in-place
scan of `chainPeople` infects the second agent at the pair (0, 1) and then scans it as
the infecting party, so the third agent, out of reach of the first, is infected too; the
snapshot scan leaves the third agent healthy. The same happens in `updateSimulation`. -/
theorem C9_counterexample :
    Person.canInfect (personAt 100 100 Status.infected) (personAt 120 100 Status.healthy)
      = false ∧
    infectedSet (contactPhase certainParams (pairDraw fun _ _ => 1 / 2) chainPeople ()).1
      = [0, 1, 2] ∧
    infectedSet
        (snapshotContactPhase certainParams (pairDraw fun _ _ => 1 / 2) chainPeople ()).1
      = [0, 1] ∧
    infectedSet (updateSimulation chainWorld).people = [0, 1, 2] := by
  decide!

theorem ahead_refl (a : Person) : Ahead a a := ⟨rfl, rfl, rfl, Or.inl rfl⟩

theorem ahead_trans (a b c : Person) (h1 : Ahead a b) (h2 : Ahead b c) : Ahead a c := by
  obtain ⟨x1, y1, m1, s1⟩ := h1
  obtain ⟨x2, y2, m2, s2⟩ := h2
  refine ⟨x1.trans x2, y1.trans y2, m1.trans m2, ?_⟩
  rcases s1 with s1 | ⟨s1, s1'⟩
  · rcases s2 with s2 | ⟨s2, s2'⟩
    · exact Or.inl (s1.trans s2)
    · exact Or.inr ⟨s1.trans s2, s2'⟩
  · rcases s2 with s2 | ⟨s2, _⟩
    · exact Or.inr ⟨s1, s2 ▸ s1'⟩
    · rw [s1'] at s2
      cases s2

theorem tryInfect_other_eq {σ : Type} (P : Params) (next : σ → ℚ × σ) (a b : Person)
    (s : σ) :
    (Person.tryInfect P next a b s).other
      = if Person.canInfect a b = true ∧ (next s).1 < Person.infectionProb P a b
        then { b with status := Status.infected, infectionTime := 0 } else b := by
  unfold Person.tryInfect
  cases hc : Person.canInfect a b
  · simp
  · by_cases hd : (next s).1 < Person.infectionProb P a b <;> simp [hd]

theorem infectionProb_congr (P : Params) (a b a' b' : Person) (ha : a.hasMask = a'.hasMask)
    (hb : b.hasMask = b'.hasMask) :
    Person.infectionProb P a b = Person.infectionProb P a' b' := by
  rw [infectionProb_eq, infectionProb_eq, ha, hb]

theorem getDistance_congr (a b a' b' : Person) (hax : a.x = a'.x) (hay : a.y = a'.y)
    (hbx : b.x = b'.x) (hby : b.y = b'.y) :
    Person.getDistance a b = Person.getDistance a' b' := by
  unfold Person.getDistance
  rw [hax, hay, hbx, hby]

/-- A call of `tryInfect` leaves `other` where it was, with the same mask, and with the
same status or newly infected. -/
theorem tryInfect_ahead {σ : Type} (P : Params) (next : σ → ℚ × σ) (a b : Person) (s : σ) :
    Ahead b (Person.tryInfect P next a b s).other := by
  rw [tryInfect_other_eq]
  split
  · rename_i h
    exact ⟨rfl, rfl, rfl, Or.inr ⟨((canInfect_iff a b).1 h.1).2.1, rfl⟩⟩
  · exact ahead_refl b

/-- Two calls of `tryInfect` with the same draw, the second on people ahead of those of
the first: the `other` of the second is ahead of the `other` of the first. -/
theorem tryInfect_sim {σ τ : Type} (P : Params) (next : σ → ℚ × σ) (next' : τ → ℚ × τ)
    (a b a' b' : Person) (s : σ) (s' : τ) (ha : Ahead a a') (hb : Ahead b b')
    (hd : (next s).1 = (next' s').1) :
    Ahead (Person.tryInfect P next a b s).other (Person.tryInfect P next' a' b' s').other := by
  obtain ⟨ax, ay, am, ast⟩ := ha
  obtain ⟨bx, by_, bm, bst⟩ := hb
  have hp := infectionProb_congr P a b a' b' am bm
  have hdist := getDistance_congr a b a' b' ax ay bx by_
  rw [tryInfect_other_eq, tryInfect_other_eq, ← hd, ← hp]
  by_cases h1 : Person.canInfect a b = true ∧ (next s).1 < Person.infectionProb P a b
  · rw [if_pos h1]
    obtain ⟨hia, hhb, hlt⟩ := (canInfect_iff a b).1 h1.1
    have hia' : a'.status = Status.infected := by
      rcases ast with h | ⟨h, _⟩
      · exact h ▸ hia
      · rw [hia] at h
        cases h
    by_cases h2 : Person.canInfect a' b' = true ∧ (next s).1 < Person.infectionProb P a b
    · rw [if_pos h2]
      exact ⟨bx, by_, bm, Or.inl rfl⟩
    · rw [if_neg h2]
      refine ⟨bx, by_, bm, Or.inl ?_⟩
      rcases bst with h | ⟨_, h⟩
      · exfalso
        apply h2
        exact ⟨(canInfect_iff a' b').2 ⟨hia', h ▸ hhb, hdist ▸ hlt⟩, h1.2⟩
      · exact h.symm
  · rw [if_neg h1]
    by_cases h2 : Person.canInfect a' b' = true ∧ (next s).1 < Person.infectionProb P a b
    · rw [if_pos h2]
      obtain ⟨_, hhb', _⟩ := (canInfect_iff a' b').1 h2.1
      refine ⟨bx, by_, bm, Or.inr ⟨?_, rfl⟩⟩
      rcases bst with h | ⟨h, _⟩
      · exact h.trans hhb'
      · exact h
    · rw [if_neg h2]
      exact ⟨bx, by_, bm, bst⟩

theorem pointwise_none {R : Person → Person → Prop} {A B : List Person}
    (h : Pointwise R A B) (k : Nat) : A[k]? = none ↔ B[k]? = none := by
  rw [List.getElem?_eq_none_iff, List.getElem?_eq_none_iff, h.1]

theorem pointwise_set_both {R : Person → Person → Prop} {A B : List Person}
    (h : Pointwise R A B) (j : Nat) (x y : Person) (hxy : R x y) :
    Pointwise R (A.set j x) (B.set j y) := by
  refine ⟨by simp [h.1], fun k a b ha hb => ?_⟩
  rw [List.getElem?_set] at ha hb
  split at ha
  · rw [if_pos (by assumption)] at hb
    split at ha
    · split at hb
      · cases ha
        cases hb
        exact hxy
      · cases hb
    · cases ha
  · rw [if_neg (by assumption)] at hb
    exact h.2 k a b ha hb

/-- One step of the inner loop, with draws fixed per pair, run on two lists of people, the
second ahead of the first: the second result is ahead of the first result. -/
theorem contactInner_sim (P : Params) (f : Nat → Nat → ℚ) (i j : Nat)
    (stA stB : List Person × Unit) (h : Pointwise Ahead stA.1 stB.1) :
    Pointwise Ahead (contactInner P (pairDraw f) i stA j).1
      (contactInner P (pairDraw f) i stB j).1 := by
  unfold contactInner
  split
  · exact h
  · cases hai : stA.1[i]? with
    | none =>
      rw [(pointwise_none h i).1 hai]
      exact h
    | some a =>
      cases haj : stA.1[j]? with
      | none =>
        rw [(pointwise_none h j).1 haj]
        cases hbi : stB.1[i]? <;> exact h
      | some b =>
        cases hbi : stB.1[i]? with
        | none => rw [(pointwise_none h i).2 hbi] at hai; cases hai
        | some a' =>
          cases hbj : stB.1[j]? with
          | none => rw [(pointwise_none h j).2 hbj] at haj; cases haj
          | some b' =>
            simp only [tryInfect_self, set_of_getElem? hai, set_of_getElem? hbi]
            exact pointwise_set_both h j _ _
              (tryInfect_sim P _ _ a b a' b' stA.2 stB.2 (h.2 i a a' hai hbi)
                (h.2 j b b' haj hbj) rfl)

theorem contactInner_foldl_sim (P : Params) (f : Nat → Nat → ℚ) (i : Nat) (l : List Nat) :
    ∀ stA stB : List Person × Unit, Pointwise Ahead stA.1 stB.1 →
      Pointwise Ahead (l.foldl (contactInner P (pairDraw f) i) stA).1
        (l.foldl (contactInner P (pairDraw f) i) stB).1 := by
  induction l with
  | nil => intro stA stB h; exact h
  | cons j t ih =>
    intro stA stB h
    exact ih _ _ (contactInner_sim P f i j stA stB h)

/-- An outer step of the in-place scan leaves every person where it was, with the same
status or newly infected. -/
theorem contactOuter_ahead {σ : Type} (P : Params) (draw : σ → Nat → Nat → ℚ × σ)
    (st : List Person × σ) (i : Nat) :
    Pointwise Ahead st.1 (contactOuter P draw st i).1 :=
  contactOuter_pointwise ahead_refl ahead_trans P draw
    (fun _ _ a b s => tryInfect_ahead P _ a b s) st i

theorem infectedAt_iff (people : List Person) (i : Nat) :
    infectedAt people i = true ↔ ∃ a, people[i]? = some a ∧ a.status = Status.infected := by
  unfold infectedAt
  cases people[i]? <;> simp

theorem mem_infectedSet (people : List Person) (i : Nat) :
    i ∈ infectedSet people ↔ ∃ a, people[i]? = some a ∧ a.status = Status.infected := by
  unfold infectedSet
  rw [List.mem_filter, infectedAt_iff, List.mem_range]
  constructor
  · intro h; exact h.2
  · intro h
    exact ⟨h.elim fun a ha => (List.getElem?_eq_some_iff.1 ha.1).1, h⟩

theorem infected_of_ahead {A B : List Person} (h : Pointwise Ahead A B) (i : Nat)
    (hi : ∃ a, A[i]? = some a ∧ a.status = Status.infected) :
    ∃ b, B[i]? = some b ∧ b.status = Status.infected := by
  obtain ⟨a, ha, hst⟩ := hi
  cases hb : B[i]? with
  | none => rw [(pointwise_none h i).2 hb] at ha; cases ha
  | some b =>
    refine ⟨b, rfl, ?_⟩
    rcases (h.2 i a b ha hb).2.2.2 with hs | ⟨hs, _⟩
    · exact hs ▸ hst
    · rw [hst] at hs
      cases hs

/-- The outer loops of the two scans, run over the same indices `l` from people of which
the second list is ahead of the first: the in-place result is ahead of the snapshot
result. -/
theorem scan_sim (P : Params) (f : Nat → Nat → ℚ) (people : List Person) (l : List Nat) :
    ∀ stA stB : List Person × Unit, Pointwise Ahead stA.1 stB.1 →
      Pointwise Ahead people stB.1 →
      Pointwise Ahead
        ((l.filter (infectedAt people)).foldl
          (fun st i => (List.range st.1.length).foldl (contactInner P (pairDraw f) i) st)
          stA).1
        (l.foldl (contactOuter P (pairDraw f)) stB).1 := by
  induction l with
  | nil => intro stA stB h _; exact h
  | cons i t ih =>
    intro stA stB h h0
    have h0' : Pointwise Ahead people (contactOuter P (pairDraw f) stB i).1 :=
      pointwise_comp h0 (contactOuter_ahead P _ stB i) ahead_trans
    rw [List.filter_cons, List.foldl_cons]
    split
    · rename_i hi
      obtain ⟨b, hb, hbst⟩ := infected_of_ahead h0 i ((infectedAt_iff people i).1 hi)
      have hB : contactOuter P (pairDraw f) stB i
          = (List.range stB.1.length).foldl (contactInner P (pairDraw f) i) stB := by
        unfold contactOuter
        rw [hb]
        simp [hbst]
      rw [List.foldl_cons]
      apply ih
      · rw [hB, h.1]
        exact contactInner_foldl_sim P f i _ stA stB h
      · exact h0'
    · exact ih _ _ (pointwise_comp h (contactOuter_ahead P _ stB i) ahead_trans) h0'

/-- C9, amended: the outer loop tests the live status, so an agent acts as the
transmitting outer-index agent exactly if it is infected when its own outer iteration
begins (an outer step that changes anything has an infected agent at its index), whether
it was infected at the start of the phase or earlier in the same scan; and with the draw
fixed per ordered pair, every agent infected after the snapshot scan is infected after
the in-place scan (which may infect more, as `chainPeople` shows). -/
theorem C9_scan_superset (P : Params) (f : Nat → Nat → ℚ) (people : List Person) :
    (∀ (st : List Person × Unit) (i : Nat), contactOuter P (pairDraw f) st i ≠ st →
      ∃ a, st.1[i]? = some a ∧ a.status = Status.infected) ∧
    (∀ k : Nat, k ∈ infectedSet (snapshotContactPhase P (pairDraw f) people ()).1 →
      k ∈ infectedSet (contactPhase P (pairDraw f) people ()).1) := by
  constructor
  · intro st i hne
    unfold contactOuter at hne
    cases hi : st.1[i]? with
    | none => rw [hi] at hne; exact absurd rfl hne
    | some a =>
      rw [hi] at hne
      by_cases hst : a.status = Status.infected
      · exact ⟨a, rfl, hst⟩
      · simp [hst] at hne
  · intro k hk
    rw [mem_infectedSet] at hk ⊢
    exact infected_of_ahead
      (scan_sim P f people (List.range people.length) (people, ()) (people, ())
        (pointwise_refl ahead_refl _) (pointwise_refl ahead_refl _)) k hk

end Epidemic
